import Mathlib

/-!
Verification development for the cavity-control supervisory layer
(`src/gui/cavity_control.py` of the `experiment_interface` repository).

The Python code is shallowly embedded:

* scope waveforms are lists of exact rationals (the float samples of the
  scope trace);
* the third-party peak detector `peakutils.indexes` is an external
  collaborator, so it is kept abstract as a function parameter.  Both
  `number_of_peaks` and `find_peak_spacing_regularity` invoke it on the
  negated waveform with `thres = 1/2`, `min_dist = 50`, exactly as the
  source does;
* `numpy` aggregates (`np.max`, `np.min`, `np.mean`, `np.std`) are embedded
  exactly over the rationals, with `np.std` using the real square root;
* the IEEE value `np.inf` returned by `find_peak_spacing_regularity` is
  modelled by `⊤ : EReal`, finite results by real coercions into `EReal`
  (for the comparisons appearing in the code, the `EReal` order agrees with
  the IEEE comparisons on `{finite reals} ∪ {+inf}`).
-/

namespace CavityControl

/-- Waveform: the list of scope samples, as exact rationals. -/
abbrev Wave := List ℚ

/-- Abstract peak detector standing for `peakutils.indexes(wave, thres, min_dist)`.
`peakutils` is a third-party library (an external collaborator of the
repository); both metric functions call it with the same arguments, which is
all the claims depend on. -/
abbrev Detector := Wave → ℚ → ℕ → List ℕ

/-- Negated waveform, `-wave` in the source. -/
def negate (w : Wave) : Wave := w.map (fun x => -x)

/-- Embeds `np.max(wave)`.  `numpy` raises on an empty array and the scope
always returns nonempty traces, so the value at `[]` is irrelevant. -/
def npMax : Wave → ℚ
  | [] => 0
  | x :: xs => xs.foldl max x

/-- Embeds `np.min(wave)`. -/
def npMin : Wave → ℚ
  | [] => 0
  | x :: xs => xs.foldl min x

/-- Embeds `np.mean` over a rational list (division by zero never occurs at
use sites: the list of spacings is guarded to be nonempty). -/
def npMean (l : List ℚ) : ℚ := l.sum / l.length

/-- Embeds the (population) variance used by `np.std`:
`mean((x - mean(x))**2)`. -/
def npVariance (l : List ℚ) : ℚ :=
  (l.map (fun x => (x - npMean l) ^ 2)).sum / l.length

/-- Embeds `np.std(l) = sqrt(mean((x - mean(x))**2))` (default `ddof=0`). -/
noncomputable def npStd (l : List ℚ) : ℝ := Real.sqrt (npVariance l)

/-- Embeds `idxs[1:] - idxs[:-1]`: consecutive differences of the detected
peak indices. -/
def peakSpacings (idxs : List ℕ) : List ℚ :=
  List.zipWith (fun a b => (a : ℚ) - (b : ℚ)) idxs.tail idxs

/-- Embeds `CavityControlGUI.number_of_peaks` (cavity_control.py:1721-1729):
returns `0` when the waveform's peak-to-peak amplitude is below the baseline
threshold `mid_baseline_threshold`, else the number of indices found by
`peakutils.indexes(-wave, thres=0.5, min_dist=50)`. -/
def number_of_peaks (D : Detector) (midBaselineThreshold : ℚ) (w : Wave) : ℕ :=
  if npMax w - npMin w < midBaselineThreshold then 0
  else (D (negate w) (1/2) 50).length

/-- Embeds `CavityControlGUI.find_peak_spacing_regularity`
(cavity_control.py:1731-1750): `np.inf` (here `⊤`) when the waveform is
below the baseline threshold, when fewer than 5 peaks are detected, or when
the spacing list is empty or has zero mean; otherwise
`np.std(spacings) / np.mean(spacings)`. -/
noncomputable def find_peak_spacing_regularity (D : Detector)
    (midBaselineThreshold : ℚ) (w : Wave) : EReal :=
  if npMax w - npMin w < midBaselineThreshold then ⊤
  else
    let idxs := D (negate w) (1/2) 50
    if idxs.length < 5 then ⊤
    else
      let spacings := peakSpacings idxs
      if spacings.length = 0 ∨ npMean spacings = 0 then ⊤
      else (((npStd spacings : ℝ) / (npMean spacings : ℝ) : ℝ) : EReal)

/-!
## Supervisory state

The embedding of the `CavityControlGUI` state: the device nodes written by
the handlers (lock-in amplifier paths and function-generator registers), the
widget mirrors that the supervisory logic itself reads back (checkboxes,
spinboxes, sliders), the background-loop running flags, the routine lock,
and a chronological trace of device-driving events.  Pure GUI presentation
(labels, `setEnabled`, styles) carries no supervisory state and is omitted;
widget quantisation/range behaviour of the GUI toolkit is an external
collaborator concern and `setValue`/`setChecked` are modelled as exact, with
the Qt change-guard (a signal fires only when the stored value actually
changes).
-/

/-- Device-driving events, in program order. -/
inductive Ev
  | setSigoutOffset (v : ℚ)     -- lock_in.set /sigouts/0/offset
  | setAux (v : ℚ)              -- lock_in.set /auxouts/{slow_offset}/offset
  | setPidCenter (v : ℚ)
  | setPidLimitLower (v : ℚ)
  | setPidLimitUpper (v : ℚ)
  | setPidEnable (b : Bool)
  | setDitherEnable (b : Bool)  -- lock_in.set /sigouts/0/enables/{d}
  | setSigoutAdd (b : Bool)     -- lock_in.set /sigouts/0/add
  | setFgAmplitude (v : ℚ)      -- fg.out_amplitude
  | setFgFrequency (v : ℚ)      -- fg.out_frequency
  | setFgOffset (v : ℚ)         -- fg.out_offset
  | setFgOut (b : Bool)         -- fg.out
  | readScope                   -- a scope acquisition
  | sleep (s : ℚ)               -- time.sleep(s)
  | joinWait (timeout : ℚ)      -- thread.join(timeout=...)
  | startOffsetMon
  | startAutoOffset
  | startRefl
  | startAutoMode
  deriving DecidableEq

/-- The supervisory state of `CavityControlGUI`. -/
structure St where
  lockHeld : Bool               -- routine_lock
  keepOffsetZero : Bool         -- keep_offset_zero configuration flag
  -- lock-in amplifier nodes
  sigoutOffset : ℚ              -- /sigouts/0/offset (fast, PID-driven offset)
  auxOffset : ℚ                 -- /auxouts/{slow_offset}/offset (slow offset)
  pidCenter : ℚ
  pidLimitLower : ℚ
  pidLimitUpper : ℚ
  pidEnable : Bool
  ditherEnable : Bool
  sigoutAdd : Bool
  -- function generator registers
  fgAmplitude : ℚ               -- fg.out_amplitude, volts
  fgFrequency : ℚ               -- fg.out_frequency, hertz
  fgOffset : ℚ                  -- fg.out_offset, volts
  fgOut : Bool                  -- fg.out
  -- widget mirrors read by the supervisory logic
  pidCheck : Bool               -- pid_enable_checkbox
  ditherCheck : Bool            -- dither_enable_checkbox
  autoOffsetCheck : Bool        -- auto_offset_checkbox
  reflCheck : Bool              -- monitor_reflection_checkbox
  autoModeCheck : Bool          -- auto_mode_finder_checkbox
  outputCheck : Bool            -- output_checkbox
  ampSpin : ℚ                   -- amplitude_spinbox, millivolts
  ampFine : ℤ                   -- amplitude_fine_slider, millivolts
  freqSpin : ℚ                  -- freq_spinbox, hertz
  slowSpin : ℚ                  -- slow_offset_spinbox, volts
  slowBase : ℚ                  -- slow_offset_base
  slowFine : ℤ                  -- slow_offset_fine_slider, steps of 0.5 mV
  offSpin : ℚ                   -- offset_spinbox, volts
  baseOffset : ℚ                -- base_offset
  fineOffSlider : ℤ             -- fine_offset_slider
  startVSpin : ℚ                -- start_v_spinbox
  stopVSpin : ℚ                 -- stop_v_spinbox
  -- background loop handles
  offsetMonRunning : Bool       -- offset_monitor_thread_running
  autoOffsetRunning : Bool      -- auto_offset_thread_running
  reflRunning : Bool            -- reflection_thread_running
  autoModeRunning : Bool        -- auto_mode_finder_thread_running
  -- chronological trace of device-driving events
  trace : List Ev
  deriving DecidableEq

/-- Appends a device-driving event to the trace. -/
def pushEv (e : Ev) (st : St) : St := {st with trace := st.trace ++ [e]}

/-- Embeds `get_mdrec_output_offset`: read `/sigouts/0/offset`. -/
def get_mdrec_output_offset (st : St) : ℚ := st.sigoutOffset

/-- Embeds `get_mdrec_slow_offset`: read `/auxouts/{slow_offset}/offset`. -/
def get_mdrec_slow_offset (st : St) : ℚ := st.auxOffset

/-- Embeds `recenter_PID_output` (cavity_control.py:113-119): reads the
current output offset and writes `center`, `limitlower`, `limitupper` in
that order. -/
def recenter_PID_output (st : St) : St :=
  let currentOutput := get_mdrec_output_offset st
  pushEv (.setPidLimitUpper (1 - currentOutput)) <|
  pushEv (.setPidLimitLower (-currentOutput)) <|
  pushEv (.setPidCenter currentOutput) <|
    {st with pidCenter := currentOutput, pidLimitLower := -currentOutput,
             pidLimitUpper := 1 - currentOutput}

/-- Embeds `start_offset_monitoring` (cavity_control.py:1480-1486): spawns
the worker only when the running flag is down. -/
def start_offset_monitoring (st : St) : St :=
  if st.offsetMonRunning then st
  else pushEv .startOffsetMon {st with offsetMonRunning := true}

/-- Embeds `stop_offset_monitoring` (cavity_control.py:1488-1494): lowers
the running flag, then `thread.join(timeout=2.0)`. -/
def stop_offset_monitoring (st : St) : St :=
  if st.offsetMonRunning then
    pushEv (.joinWait 2) {st with offsetMonRunning := false}
  else st

/-- Embeds `start_auto_offset_management` (cavity_control.py:1575-1581). -/
def start_auto_offset_management (st : St) : St :=
  if st.autoOffsetRunning then st
  else pushEv .startAutoOffset {st with autoOffsetRunning := true}

/-- Embeds `stop_auto_offset_management` (cavity_control.py:1583-1590):
lowers the running flag, then `thread.join(timeout=3.0)`. -/
def stop_auto_offset_management (st : St) : St :=
  if st.autoOffsetRunning then
    pushEv (.joinWait 3) {st with autoOffsetRunning := false}
  else st

/-- Embeds `start_reflection_monitoring` (cavity_control.py:1677-1683). -/
def start_reflection_monitoring (st : St) : St :=
  if st.reflRunning then st
  else pushEv .startRefl {st with reflRunning := true}

/-- Embeds `stop_reflection_monitoring` (cavity_control.py:1685-1691):
lowers the running flag, then `thread.join(timeout=3.0)`. -/
def stop_reflection_monitoring (st : St) : St :=
  if st.reflRunning then
    pushEv (.joinWait 3) {st with reflRunning := false}
  else st

/-- Embeds `start_auto_mode_finder` (cavity_control.py:1535-1541). -/
def start_auto_mode_finder (st : St) : St :=
  if st.autoModeRunning then st
  else pushEv .startAutoMode {st with autoModeRunning := true}

/-- Embeds `stop_auto_mode_finder` (cavity_control.py:1543-1549): lowers
the running flag, then `thread.join(timeout=5.0)`. -/
def stop_auto_mode_finder (st : St) : St :=
  if st.autoModeRunning then
    pushEv (.joinWait 5) {st with autoModeRunning := false}
  else st

/-- Embeds `on_pid_enable_changed` (cavity_control.py:1164-1215).  Enabling:
recenter first, then write `enable`, then start the offset monitor.
Disabling: write `enable`, stop the offset monitor, read the device offset
back and adopt it as the new base offset with the fine adjustment zeroed. -/
def on_pid_enable_changed (enabled : Bool) (st : St) : St :=
  let st := if enabled then recenter_PID_output st else st
  let st := pushEv (.setPidEnable enabled) {st with pidEnable := enabled}
  if enabled then start_offset_monitoring st
  else
    let st := stop_offset_monitoring st
    let offsetValue := get_mdrec_output_offset st
    {st with fineOffSlider := 0, baseOffset := offsetValue, offSpin := offsetValue}

/-- The PID enable checkbox `setChecked`, with the Qt change-guard: the
`stateChanged` handler fires only when the stored state changes. -/
def pid_enable_setChecked (b : Bool) (st : St) : St :=
  if st.pidCheck = b then st
  else on_pid_enable_changed b {st with pidCheck := b}

/-- Embeds `disable_pid` (cavity_control.py:376-379). -/
def disable_pid (st : St) : St :=
  if st.pidCheck then pid_enable_setChecked false st else st

/-- Embeds `enable_pid` (cavity_control.py:381-384). -/
def enable_pid (st : St) : St :=
  if st.pidCheck then st else pid_enable_setChecked true st

/-- Embeds `on_dither_enable_changed` (cavity_control.py:1275-1282). -/
def on_dither_enable_changed (enabled : Bool) (st : St) : St :=
  pushEv (.setDitherEnable enabled) {st with ditherEnable := enabled}

/-- The dither checkbox `setChecked`, with the Qt change-guard. -/
def dither_enable_setChecked (b : Bool) (st : St) : St :=
  if st.ditherCheck = b then st
  else on_dither_enable_changed b {st with ditherCheck := b}

/-- Embeds `on_auto_offset_changed` (cavity_control.py:1454-1461). -/
def on_auto_offset_changed (enabled : Bool) (st : St) : St :=
  if enabled then start_auto_offset_management st
  else stop_auto_offset_management st

/-- The auto-offset checkbox `setChecked`, with the Qt change-guard. -/
def auto_offset_setChecked (b : Bool) (st : St) : St :=
  if st.autoOffsetCheck = b then st
  else on_auto_offset_changed b {st with autoOffsetCheck := b}

/-- Embeds `on_monitor_reflection_changed` (cavity_control.py:1445-1452). -/
def on_monitor_reflection_changed (enabled : Bool) (st : St) : St :=
  if enabled then start_reflection_monitoring st
  else stop_reflection_monitoring st

/-- The reflection-monitor checkbox `setChecked`, with the Qt change-guard. -/
def monitor_reflection_setChecked (b : Bool) (st : St) : St :=
  if st.reflCheck = b then st
  else on_monitor_reflection_changed b {st with reflCheck := b}

/-- Embeds `on_auto_mode_finder_changed` (cavity_control.py:1463-1470). -/
def on_auto_mode_finder_changed (enabled : Bool) (st : St) : St :=
  if enabled then start_auto_mode_finder st
  else stop_auto_mode_finder st

/-- The auto-mode-finder checkbox `setChecked`, with the Qt change-guard. -/
def auto_mode_finder_setChecked (b : Bool) (st : St) : St :=
  if st.autoModeCheck = b then st
  else on_auto_mode_finder_changed b {st with autoModeCheck := b}

/-- Embeds `on_output_toggled` (cavity_control.py:1352-1360): sets
`fg.out` and `/sigouts/0/add`. -/
def on_output_toggled (enabled : Bool) (st : St) : St :=
  pushEv (.setSigoutAdd enabled) <| pushEv (.setFgOut enabled) <|
    {st with fgOut := enabled, sigoutAdd := enabled}

/-- The FG output checkbox `setChecked`, with the Qt change-guard. -/
def output_setChecked (b : Bool) (st : St) : St :=
  if st.outputCheck = b then st
  else on_output_toggled b {st with outputCheck := b}

/-- Embeds `on_amplitude_changed` (cavity_control.py:1308-1324): total
amplitude is base plus fine adjustment (mV); sets `fg.out_amplitude`, and
`fg.out_offset` to 0 or half the amplitude per `keep_offset_zero`. -/
def on_amplitude_changed (valueMv : ℚ) (st : St) : St :=
  let totalAmplitudeMv := valueMv + (st.ampFine : ℚ)
  let valueV := totalAmplitudeMv / 1000
  let offsetMv : ℚ := if st.keepOffsetZero then 0 else totalAmplitudeMv / 2
  let offsetV := offsetMv / 1000
  pushEv (.setFgOffset offsetV) <| pushEv (.setFgAmplitude valueV) <|
    {st with fgAmplitude := valueV, fgOffset := offsetV}

/-- The amplitude spinbox `setValue`, with the Qt change-guard. -/
def amplitude_setValue (v : ℚ) (st : St) : St :=
  if st.ampSpin = v then st
  else on_amplitude_changed v {st with ampSpin := v}

/-- Embeds `on_amplitude_fine_changed` (cavity_control.py:1326-1343). -/
def on_amplitude_fine_changed (fineMv : ℤ) (st : St) : St :=
  let totalAmplitudeMv := st.ampSpin + (fineMv : ℚ)
  let valueV := totalAmplitudeMv / 1000
  let offsetMv : ℚ := if st.keepOffsetZero then 0 else totalAmplitudeMv / 2
  let offsetV := offsetMv / 1000
  pushEv (.setFgOffset offsetV) <| pushEv (.setFgAmplitude valueV) <|
    {st with fgAmplitude := valueV, fgOffset := offsetV}

/-- The amplitude fine slider `setValue`, with the Qt change-guard. -/
def amplitude_fine_setValue (v : ℤ) (st : St) : St :=
  if st.ampFine = v then st
  else on_amplitude_fine_changed v {st with ampFine := v}

/-- Embeds `on_freq_changed` (cavity_control.py:1345-1350). -/
def on_freq_changed (v : ℚ) (st : St) : St :=
  pushEv (.setFgFrequency v) {st with fgFrequency := v}

/-- The frequency spinbox `setValue`, with the Qt change-guard. -/
def freq_setValue (v : ℚ) (st : St) : St :=
  if st.freqSpin = v then st
  else on_freq_changed v {st with freqSpin := v}

/-- Embeds `on_slow_offset_changed` (cavity_control.py:1386-1400): writes
the aux output, then recomputes the base as value minus the fine
adjustment. -/
def on_slow_offset_changed (value : ℚ) (st : St) : St :=
  let st := pushEv (.setAux value) {st with auxOffset := value}
  let fineOffsetV := ((st.slowFine : ℚ) * (1/2)) / 1000
  {st with slowBase := value - fineOffsetV}

/-- The slow offset spinbox `setValue`, with the Qt change-guard. -/
def slow_offset_setValue (v : ℚ) (st : St) : St :=
  if st.slowSpin = v then st
  else on_slow_offset_changed v {st with slowSpin := v}

/-- Embeds `on_slow_offset_fine_changed` (cavity_control.py:1424-1443):
each slider step is 0.5 mV; writes base plus fine to the aux output and
mirrors the total in the (signal-blocked) spinbox. -/
def on_slow_offset_fine_changed (value : ℤ) (st : St) : St :=
  let fineOffsetMv := (value : ℚ) * (1/2)
  let totalOffsetV := st.slowBase + fineOffsetMv / 1000
  pushEv (.setAux totalOffsetV) {st with slowSpin := totalOffsetV, auxOffset := totalOffsetV}

/-- The slow offset fine slider `setValue`, with the Qt change-guard. -/
def slow_offset_fine_setValue (v : ℤ) (st : St) : St :=
  if st.slowFine = v then st
  else on_slow_offset_fine_changed v {st with slowFine := v}

/-- Embeds `on_offset_changed` (cavity_control.py:1225-1249): when the PID
is not enabled, writes the total offset to `/sigouts/0/offset`, resets the
fine adjustment and adopts the value as the new base; with the PID enabled
the handler does nothing. -/
def on_offset_changed (value : ℚ) (st : St) : St :=
  if st.pidCheck then st
  else
    let st := pushEv (.setSigoutOffset value) {st with sigoutOffset := value}
    {st with fineOffSlider := 0, baseOffset := value}

/-- The fast offset spinbox `setValue`, with the Qt change-guard. -/
def offset_setValue (v : ℚ) (st : St) : St :=
  if st.offSpin = v then st
  else on_offset_changed v {st with offSpin := v}

/-- Embeds `set_slow_offset` (cavity_control.py:393-428): clamps the value
to `[1.5, 6.5]`, writes the aux output and updates the mirrors with the
fine adjustment reset to zero. -/
def set_slow_offset (value : ℚ) (st : St) : St :=
  let value := max (3/2) (min (13/2) value)
  let st := pushEv (.setAux value) {st with auxOffset := value}
  {st with slowBase := value, slowSpin := value, slowFine := 0}

/-!
## The auto-offset ramp routine

`_auto_offset_loop` reads the PID-driven output each tick and invokes
`_ramp_slow_offset` when it is outside `[0.05, 0.95]`.  The ramp attempts a
non-blocking acquisition of `routine_lock`; if acquired it performs up to 15
steps of ±1 mV on the slow offset, each step reading the device back,
clamping, applying via `set_slow_offset` and sleeping 1 s, releasing the
lock in a `finally` block.  The concurrently-written
`auto_offset_thread_running` flag is modelled as a function of the step
index, and a possible device-communication exception at the read-back of
step `i` as a fault-injection function. -/

/-- Embeds `routine_lock.acquire(blocking=False)`: never blocks, returns
whether the token was obtained. -/
def routine_lock_tryAcquire (st : St) : Bool × St :=
  if st.lockHeld then (false, st) else (true, {st with lockHeld := true})

/-- Embeds `routine_lock.release()`. -/
def routine_lock_release (st : St) : St := {st with lockHeld := false}

/-- Ramp direction argument of `_ramp_slow_offset`. -/
inductive RampDir
  | up
  | down
  deriving DecidableEq

/-- Embeds `step = 0.001; if direction == 'down': step = -step`. -/
def rampStepSize : RampDir → ℚ
  | .up => 1/1000
  | .down => -(1/1000)

/-- How a protected routine finished: refused at the lock, ran to
completion, or propagated an exception (after the `finally` release). -/
inductive RoutineOutcome
  | refused
  | finished
  | raised
  deriving DecidableEq

/-- Embeds the `for i in range(15)` loop of `_ramp_slow_offset`
(cavity_control.py:1638-1665): stop if the auto-offset flag is down, read
the slow offset back (a device fault raises here), clamp the stepped value
to `[1.5, 6.5]`, apply it via `set_slow_offset`, sleep 1 s. -/
def rampLoop (stepq : ℚ) (running faults : ℕ → Bool) : ℕ → ℕ → St → Except St St
  | 0, _, st => .ok st
  | n + 1, i, st =>
    if running i then
      if faults i then .error st
      else
        let currentSlow := get_mdrec_slow_offset st
        let newSlow := max (3/2) (min (13/2) (currentSlow + stepq))
        let st := set_slow_offset newSlow st
        let st := pushEv (.sleep 1) st
        rampLoop stepq running faults n (i + 1) st
    else .ok st

/-- Embeds `_ramp_slow_offset` (cavity_control.py:1621-1675): non-blocking
lock acquisition with immediate refusal, the 15-step loop, and the
unconditional `finally: routine_lock.release()`. -/
def ramp_slow_offset (direction : RampDir) (running faults : ℕ → Bool) (st : St) :
    RoutineOutcome × St :=
  match routine_lock_tryAcquire st with
  | (false, st) => (.refused, st)
  | (true, st) =>
    match rampLoop (rampStepSize direction) running faults 15 0 st with
    | .error st => (.raised, routine_lock_release st)
    | .ok st => (.finished, routine_lock_release st)

/-- Embeds one tick of `_auto_offset_loop` (cavity_control.py:1592-1611):
read the output offset; below 0.05 ramp up, above 0.95 ramp down, otherwise
only report monitoring.  Exceptions raised by the tick body are caught by
the loop, so the tick returns the resulting state whatever the outcome. -/
def auto_offset_tick (running faults : ℕ → Bool) (st : St) : St :=
  let currentOffset := get_mdrec_output_offset st
  if currentOffset < 1/20 then (ramp_slow_offset .up running faults st).2
  else if currentOffset > 19/20 then (ramp_slow_offset .down running faults st).2
  else st

/-- The event block a full 15-step ramp appends: at each step the clamped
new value is written to the aux output and a 1 s sleep follows. -/
def rampExpectedTrace (stepq : ℚ) : ℕ → ℚ → List Ev
  | 0, _ => []
  | n + 1, a =>
    let v := max (3/2) (min (13/2) (a + stepq))
    Ev.setAux v :: Ev.sleep 1 :: rampExpectedTrace stepq n v

/-- Counts slow-offset device writes in a trace. -/
def countSetAux (t : List Ev) : ℕ :=
  (t.filter fun e => match e with | .setAux _ => true | _ => false).length

/-- State carried by either side of an `Except St St`. -/
def Except.finalSt : Except St St → St
  | .ok st => st
  | .error st => st

/-- Concrete supervisory state for witnesses: free lock, output offset at
0.03 V, slow offset at 3 V, auto-offset management running. -/
def rampWitnessSt : St :=
  { lockHeld := false, keepOffsetZero := true,
    sigoutOffset := 3/100, auxOffset := 3,
    pidCenter := 0, pidLimitLower := 0, pidLimitUpper := 1,
    pidEnable := false, ditherEnable := false, sigoutAdd := false,
    fgAmplitude := 1/25, fgFrequency := 5, fgOffset := 0, fgOut := false,
    pidCheck := false, ditherCheck := false, autoOffsetCheck := true,
    reflCheck := false, autoModeCheck := false, outputCheck := false,
    ampSpin := 40, ampFine := 0, freqSpin := 5,
    slowSpin := 3, slowBase := 3, slowFine := 0,
    offSpin := 1/2, baseOffset := 1/2, fineOffSlider := 0,
    startVSpin := 2, stopVSpin := 6, offsetMonRunning := false,
    autoOffsetRunning := true, reflRunning := false, autoModeRunning := false,
    trace := [] }

/-!
## Loop stop lifecycle (C4)

`stop_offset_monitoring` and `stop_auto_offset_management` lower the
cooperative flag and call `thread.join(timeout=...)`.  In Python,
`Thread.join(timeout=...)` returns `None` whether or not the worker exited
within the timeout; detecting a survivor requires a subsequent
`is_alive()` check, which the code does not perform, and nothing is
raised.  The checked wrappers below expose that exit behaviour with an
explicit environment bit saying whether the worker actually exited within
the timeout; the result provably does not depend on it. -/

/-- A lifecycle fault, as the specification's error taxonomy would have the
stop path report when the worker outlives the join timeout. -/
inductive LifecycleFault
  | workerStillAlive
  deriving DecidableEq

/-- Exit behaviour of `stop_offset_monitoring` (cavity_control.py:1488-1494)
for a given environment: `join(timeout=2.0)` discards the liveness outcome
and the function returns normally in all cases. -/
def stop_offset_monitoring_checked (_workerExitedInTime : Bool) (st : St) :
    Except LifecycleFault St :=
  .ok (stop_offset_monitoring st)

/-- Exit behaviour of `stop_auto_offset_management`
(cavity_control.py:1583-1590): `join(timeout=3.0)` discards the liveness
outcome and the function returns normally in all cases. -/
def stop_auto_offset_management_checked (_workerExitedInTime : Bool) (st : St) :
    Except LifecycleFault St :=
  .ok (stop_auto_offset_management st)

/-- Concrete state with both monitored loops running, for the C4
counterexample. -/
def stopWitnessSt : St :=
  { rampWitnessSt with offsetMonRunning := true, autoOffsetRunning := true }

/-!
## Scoped scope acquisition (C3)

`read_scope_data` saves the scope settings, overrides them, acquires, and
calls `set_scope_settings(saved)` after the acquisition — with no
`try/finally`, so an acquisition error propagates before the restore
runs. -/

/-- The three scope settings handled by `read_scope_settings` /
`set_scope_settings`. -/
structure ScopeSettings where
  sampling : ℤ
  length : ℤ
  inputselect : ℤ
  deriving DecidableEq

/-- Scope-node device writes and the acquisition. -/
inductive ScopeEv
  | setTime (v : ℤ)         -- /scopes/0/time
  | setLength (v : ℤ)       -- /scopes/0/length
  | setInputSelect (v : ℤ)  -- /scopes/0/channels/0/inputselect
  | acquire                 -- get_data_scope
  deriving DecidableEq

/-- Scope-settings state with its device-write trace. -/
structure ScopeSt where
  settings : ScopeSettings
  trace : List ScopeEv
  deriving DecidableEq

/-- Embeds `read_scope_settings` (cavity_control.py:1939-1951). -/
def read_scope_settings (st : ScopeSt) : ScopeSettings := st.settings

/-- Embeds `set_scope_settings` (cavity_control.py:1953-1962): the settings
dict built by `read_scope_settings` always carries all three keys, so all
three nodes are written, in the order time, length, inputselect. -/
def set_scope_settings (s : ScopeSettings) (st : ScopeSt) : ScopeSt :=
  { settings := s,
    trace := st.trace
      ++ [.setTime s.sampling, .setLength s.length, .setInputSelect s.inputselect] }

/-- Embeds `read_scope_data` (cavity_control.py:1925-1937): save the
current settings, override time/length/inputselect, acquire (`acq` is the
acquisition outcome supplied by the device environment; an `error` models
`get_data_scope` raising), then restore the saved settings.  There is no
`try/finally`: when the acquisition raises, the exception propagates with
the overridden settings still in place. -/
def read_scope_data (length inputselect sampling : ℤ)
    (acq : Except Unit (Wave × ℚ)) (st : ScopeSt) :
    Except ScopeSt ((Wave × ℚ) × ScopeSt) :=
  let settings := read_scope_settings st
  let st : ScopeSt :=
    { settings := ⟨sampling, length, inputselect⟩,
      trace := st.trace
        ++ [.setTime sampling, .setLength length, .setInputSelect inputselect,
            .acquire] }
  match acq with
  | .error _ => .error st
  | .ok wd => .ok (wd, set_scope_settings settings st)

/-!
## The mode-finding routine

`mode_finding_routine` (cavity_control.py:1752-1912) is embedded relative
to a scope environment: the list of successive `read_scope_data` outcomes
(`error` models the acquisition raising).  Each loop consumes one
environment entry per iteration, so recursion is fuelled by the environment
length; a run that outruns the finite environment is undetermined (`none`).
The comparisons against the regularity thresholds are classical (the
regularity is an extended real), hence the routine definitions are
noncomputable; every branch condition on concrete data is still provable by
evaluation.  The former default arguments become the `MFParams` record. -/

/-- Outcome of one scope acquisition supplied by the environment. -/
abbrev ScopeRes := Except Unit Wave

/-- The environment of the routine: successive scope-acquisition results. -/
abbrev MFEnv := List ScopeRes

/-- The `mode_finding_settings` configuration dict entries used by the
routine. -/
structure ModeFindingSettings where
  fgAmplitudeMv : ℚ    -- mode_finding_settings['fg_amplitude_mv']
  fgFrequencyHz : ℚ    -- mode_finding_settings['fg_amplitude_frequency_hz']

/-- The keyword parameters of `mode_finding_routine` with their defaults
`step_v=0.01, delay_s=0.1, regularity_threshold=0.3, fine_step=0.01,
fine_regularity_threshold=0.2`. -/
structure MFParams where
  stepV : ℚ
  delayS : ℚ
  regularityThreshold : ℚ
  fineStep : ℚ
  fineRegularityThreshold : ℚ

/-- The default parameter values of `mode_finding_routine`. -/
def mfDefaults : MFParams :=
  { stepV := 1/100, delayS := 1/10, regularityThreshold := 3/10,
    fineStep := 1/100, fineRegularityThreshold := 1/5 }

/-- Rational thresholds compared against the `EReal`-valued regularity. -/
def toE (q : ℚ) : EReal := ((q : ℝ) : EReal)

section
open Classical

/-- One `read_scope_data` call inside the routine: consumes the next
environment entry; `none` when the environment is exhausted, `error` when
the acquisition raised (the exception propagates with the state at the
raise point). -/
def readScope1 (env : MFEnv) (st : St) : Option (Except St (Wave × MFEnv × St)) :=
  match env with
  | [] => none
  | r :: rest =>
    let st := pushEv .readScope st
    match r with
    | .error _ => some (.error st)
    | .ok w => some (.ok (w, rest, st))

/-- Embeds the directional probe `while` loop of the initial check
(cavity_control.py:1829-1839): while the regularity is at or above the
threshold, the offset has not passed `stop_v` and fewer than 10 attempts
were made — step by `dir*step_v`, sleep, acquire, and stop with success as
soon as the regularity drops below the threshold. -/
noncomputable def mfProbeLoop (D : Detector) (bThr stepV delayS thr stopV dirq : ℚ) :
    ℕ → ℚ → EReal → ℕ → MFEnv → St → Option (Except St (Bool × MFEnv × St))
  | fuel, currentOffset, reg, attempts, env, st =>
    if reg ≥ toE thr ∧ currentOffset ≤ stopV ∧ attempts < 10 then
      match fuel with
      | 0 => none
      | fuel + 1 =>
        let c := currentOffset + dirq * stepV
        let st := slow_offset_setValue c st
        let st := pushEv (.sleep delayS) st
        match readScope1 env st with
        | none => none
        | some (.error st) => some (.error st)
        | some (.ok (w, env, st)) =>
          let reg := find_peak_spacing_regularity D bThr w
          if reg < toE thr then some (.ok (true, env, st))
          else mfProbeLoop D bThr stepV delayS thr stopV dirq fuel c reg (attempts + 1) env st
    else some (.ok (false, env, st))

/-- Embeds the coarse linear scan (cavity_control.py:1846-1856): from the
current offset up to `stop_v` in `step_v` steps, acquiring at each offset,
stopping with success when the regularity drops below the threshold. -/
noncomputable def mfCoarseLoop (D : Detector) (bThr stepV delayS thr stopV : ℚ) :
    ℕ → ℚ → MFEnv → St → Option (Except St (Bool × MFEnv × St))
  | fuel, currentOffset, env, st =>
    if currentOffset ≤ stopV then
      match fuel with
      | 0 => none
      | fuel + 1 =>
        match readScope1 env st with
        | none => none
        | some (.error st) => some (.error st)
        | some (.ok (w, env, st)) =>
          let reg := find_peak_spacing_regularity D bThr w
          if reg < toE thr then some (.ok (true, env, st))
          else
            let c := currentOffset + stepV
            let st := slow_offset_setValue c st
            let st := pushEv (.sleep delayS) st
            mfCoarseLoop D bThr stepV delayS thr stopV fuel c env st
    else some (.ok (false, env, st))

/-- Embeds the fine scan `while` loop (cavity_control.py:1870-1878): scan
the fast offset up to the bound in `fine_step` steps, stopping at the first
regularity below the fine threshold. -/
noncomputable def mfFineLoop (D : Detector) (bThr fineStep delayS fthr bound : ℚ) :
    ℕ → ℚ → MFEnv → St → Option (Except St (MFEnv × St))
  | fuel, currentOffset, env, st =>
    if currentOffset ≤ bound then
      match fuel with
      | 0 => none
      | fuel + 1 =>
        match readScope1 env st with
        | none => none
        | some (.error st) => some (.error st)
        | some (.ok (w, env, st)) =>
          let reg := find_peak_spacing_regularity D bThr w
          if reg < toE fthr then some (.ok (env, st))
          else
            let c := currentOffset + fineStep
            let st := offset_setValue c st
            let st := pushEv (.sleep delayS) st
            mfFineLoop D bThr fineStep delayS fthr bound fuel c env st
    else some (.ok (env, st))

/-- Embeds the suppression and configuration prefix of the routine
(cavity_control.py:1776-1807): disable the PID if it was enabled, uncheck
dither / auto-offset / reflection-monitor / auto-mode-finder, zero the
amplitude fine slider, set the mode-finding amplitude and frequency, enable
the FG output, and zero the slow-offset fine slider. -/
def mfPrefix (MFS : ModeFindingSettings) (st : St) : St :=
  let st := if st.pidCheck then disable_pid st else st
  let st := dither_enable_setChecked false st
  let st := auto_offset_setChecked false st
  let st := monitor_reflection_setChecked false st
  let st := auto_mode_finder_setChecked false st
  let st := amplitude_fine_setValue 0 st
  let st := amplitude_setValue MFS.fgAmplitudeMv st
  let st := freq_setValue MFS.fgFrequencyHz st
  let st := output_setChecked true st
  slow_offset_fine_setValue 0 st

/-- Embeds the initial check (cavity_control.py:1809-1839): acquire once;
with at least 5 peaks, mode found immediately when the regularity beats the
threshold, else probe one step in direction +1, reverse the direction if
the regularity worsened, and run the bounded probe loop. -/
noncomputable def mfInitialCheck (D : Detector) (bThr : ℚ) (P : MFParams)
    (stopV : ℚ) (env : MFEnv) (st : St) : Option (Except St (Bool × MFEnv × St)) :=
  match readScope1 env st with
  | none => none
  | some (.error st) => some (.error st)
  | some (.ok (w, env, st)) =>
    if 5 ≤ number_of_peaks D bThr w then
      let reg := find_peak_spacing_regularity D bThr w
      if reg < toE P.regularityThreshold then some (.ok (true, env, st))
      else
        let prevReg := reg
        let currentOffset := st.slowSpin
        let newOffset := currentOffset + 1 * P.stepV  -- dir = 1
        let st := slow_offset_setValue newOffset st
        match readScope1 env st with
        | none => none
        | some (.error st) => some (.error st)
        | some (.ok (w, env, st)) =>
          let reg := find_peak_spacing_regularity D bThr w
          let dirq : ℚ := if reg > prevReg then -1 else 1
          mfProbeLoop D bThr P.stepV P.delayS P.regularityThreshold stopV dirq
            env.length currentOffset reg 0 env st
    else some (.ok (false, env, st))

/-- Embeds the restoration epilogue (cavity_control.py:1884-1901): restore
the frequency, put the FG output / dither / auto-offset /
reflection-monitor / auto-mode-finder checkboxes back to their snapshots,
and re-enable the PID last (which also restarts offset monitoring). -/
def mfRestore (prevFrequency : ℚ)
    (isPid isDither isAO isRefl isFgOut isAMF : Bool) (st : St) : St :=
  let st := freq_setValue prevFrequency st
  let st := if isFgOut then st else output_setChecked false st
  let st := if isDither then dither_enable_setChecked true st else st
  let st := if isAO then auto_offset_setChecked true st else st
  let st := if isRefl then monitor_reflection_setChecked true st else st
  let st := if isAMF then auto_mode_finder_setChecked true st else st
  if isPid then start_offset_monitoring (enable_pid st) else st

/-- Embeds the part of the routine after the coarse-scan stage: the
amplitude restore (cavity_control.py:1858-1859), the fine scan when the
mode was found (1861-1878), and the restoration epilogue. -/
noncomputable def mfAfterCoarse (D : Detector) (bThr : ℚ) (P : MFParams)
    (prevAmplitude prevFrequency : ℚ)
    (isPid isDither isAO isRefl isFgOut isAMF : Bool)
    (found : Bool) (env : MFEnv) (st : St) : Option (Except St (Bool × St)) :=
  let st := amplitude_setValue (prevAmplitude * 1000) st
  let afterFine :=
    if found then
      let initialOffset := st.offSpin
      let c := max 0 (initialOffset - 3/20)
      let st := offset_setValue c st
      let st := pushEv (.sleep (1/5)) st
      mfFineLoop D bThr P.fineStep P.delayS P.fineRegularityThreshold
        (min 1 (initialOffset + 3/20)) env.length c env st
    else some (.ok (env, st))
  match afterFine with
  | none => none
  | some (.error st) => some (.error st)
  | some (.ok (_, st)) =>
    some (.ok (found,
      mfRestore prevFrequency isPid isDither isAO isRefl isFgOut isAMF st))

/-- Embeds the routine from the unconditional reset of the slow offset to
`start_v` (cavity_control.py:1841-1844) onwards: the coarse scan when the
mode was not yet found, then the post-coarse stage. -/
noncomputable def mfTail (D : Detector) (bThr : ℚ) (P : MFParams)
    (prevAmplitude prevFrequency : ℚ)
    (isPid isDither isAO isRefl isFgOut isAMF : Bool)
    (startV stopV : ℚ) (found : Bool) (env : MFEnv) (st : St) :
    Option (Except St (Bool × St)) :=
  let st := slow_offset_setValue startV st
  let st := pushEv (.sleep 1) st
  let afterCoarse :=
    if found then some (.ok (found, env, st))
    else mfCoarseLoop D bThr P.stepV P.delayS P.regularityThreshold stopV
      env.length startV env st
  match afterCoarse with
  | none => none
  | some (.error st) => some (.error st)
  | some (.ok (found, env, st)) =>
    mfAfterCoarse D bThr P prevAmplitude prevFrequency
      isPid isDither isAO isRefl isFgOut isAMF found env st

/-- Embeds the `try` body of `mode_finding_routine`: snapshot, prefix,
initial check, tail. -/
noncomputable def mfBody (D : Detector) (bThr : ℚ) (MFS : ModeFindingSettings)
    (P : MFParams) (env : MFEnv) (st : St) : Option (Except St (Bool × St)) :=
  let startV := st.startVSpin
  let stopV := st.stopVSpin
  let prevAmplitude := st.fgAmplitude
  let prevFrequency := st.fgFrequency
  let isPid := st.pidCheck
  let isDither := st.ditherCheck
  let isAO := st.autoOffsetCheck
  let isRefl := st.reflCheck
  let isFgOut := st.outputCheck
  let isAMF := st.autoModeCheck
  let st := mfPrefix MFS st
  match mfInitialCheck D bThr P stopV env st with
  | none => none
  | some (.error st) => some (.error st)
  | some (.ok (found, env, st)) =>
    mfTail D bThr P prevAmplitude prevFrequency isPid isDither isAO isRefl
      isFgOut isAMF startV stopV found env st

/-- Embeds `mode_finding_routine` (cavity_control.py:1752-1912):
non-blocking lock acquisition with immediate refusal, the `try` body, and
the unconditional `finally: routine_lock.release()` on both the normal and
the exception exit.  The returned `Bool` is the routine's final
`found_mode`. -/
noncomputable def mode_finding_routine (D : Detector) (bThr : ℚ)
    (MFS : ModeFindingSettings) (P : MFParams) (env : MFEnv) (st : St) :
    Option (RoutineOutcome × Bool × St) :=
  match routine_lock_tryAcquire st with
  | (false, st) => some (.refused, false, st)
  | (true, st) =>
    match mfBody D bThr MFS P env st with
    | none => none
    | some (.error st) => some (.raised, false, routine_lock_release st)
    | some (.ok (found, st)) => some (.finished, found, routine_lock_release st)

end

/-!
## Frame lemmas

The scan loops of the mode-finding routine only drive the slow offset, the
fast offset and the scope; they leave the function-generator registers, the
spinbox mirrors they do not own, the toggle states and the lock untouched.
`Frame12` bundles the touched-nowhere-in-loops fields. -/

/-- The claim-relevant fields that the scan loops never modify. -/
def Frame12 (a b : St) : Prop :=
  a.lockHeld = b.lockHeld ∧ a.fgAmplitude = b.fgAmplitude ∧
  a.fgFrequency = b.fgFrequency ∧ a.ampSpin = b.ampSpin ∧
  a.ampFine = b.ampFine ∧ a.freqSpin = b.freqSpin ∧
  a.ditherCheck = b.ditherCheck ∧ a.autoOffsetCheck = b.autoOffsetCheck ∧
  a.reflCheck = b.reflCheck ∧ a.autoModeCheck = b.autoModeCheck ∧
  a.outputCheck = b.outputCheck ∧ a.pidCheck = b.pidCheck

/-- Final state of a loop result, whichever side it lands on. -/
def exceptSt3 : Except St (Bool × MFEnv × St) → St
  | .error s => s
  | .ok (_, _, s) => s

/-- Final state of a fine-loop result. -/
def exceptSt2 : Except St (MFEnv × St) → St
  | .error s => s
  | .ok (_, s) => s

/-- Concrete detector for counterexamples: never finds a peak. -/
def cexD : Detector := fun _ _ _ => []

/-- Concrete mode-finding settings for counterexamples: 60 mV, 33 Hz. -/
def cexMFS : ModeFindingSettings := ⟨60, 33⟩

/-- Concrete pre-invocation state with the dither toggle enabled. -/
def cexSt : St :=
  { rampWitnessSt with ditherCheck := true, ditherEnable := true }

/-- Concrete state holding the guard, for witnesses. -/
def lockedSt : St := { rampWitnessSt with lockHeld := true }

/-- A flat waveform: zero peak-to-peak amplitude, no signal. -/
def wflat : Wave := [0, 0]

/-- Mode-finding settings matching the witness state's spinboxes (40 mV,
5 Hz), so every configuration change-guard fires as a no-op. -/
def cexMFS5 : ModeFindingSettings := ⟨40, 5⟩

/-- Concrete pre-invocation state for a completed not-found run: free
lock, all suppressible toggles already down, FG output already up, and a
mode-finding stop voltage (1 V) below the start voltage (2 V) so the
coarse scan exits immediately. -/
def cexSt6 : St :=
  { lockHeld := false, keepOffsetZero := true,
    sigoutOffset := 1/2, auxOffset := 3,
    pidCenter := 0, pidLimitLower := 0, pidLimitUpper := 1,
    pidEnable := false, ditherEnable := false, sigoutAdd := true,
    fgAmplitude := 1/25, fgFrequency := 5, fgOffset := 0, fgOut := true,
    pidCheck := false, ditherCheck := false, autoOffsetCheck := false,
    reflCheck := false, autoModeCheck := false, outputCheck := true,
    ampSpin := 40, ampFine := 0, freqSpin := 5,
    slowSpin := 3, slowBase := 3, slowFine := 0,
    offSpin := 1/2, baseOffset := 1/2, fineOffSlider := 0,
    startVSpin := 2, stopVSpin := 1, offsetMonRunning := false,
    autoOffsetRunning := false, reflRunning := false, autoModeRunning := false,
    trace := [] }

/-- Concrete detector finding five equally spaced peaks on every
waveform. -/
def cexD5 : Detector := fun _ _ _ => [100, 210, 320, 430, 540]

/-- Concrete non-flat waveform. -/
def w5 : Wave := [0, 5]

/-- Concrete pre-invocation state for the immediate-found run: like
`cexSt6` but with a genuine scan window (stop 6 V); slow offset sits at
3 V while `start_v` is 2 V. -/
def cexSt7 : St := { cexSt6 with stopVSpin := 6 }

/-- The final state of the concrete immediate-found run: read, reset the
slow offset to `start_v` (2 V), sleep, step the fast offset to the fine
window start, sleep, read (the fine threshold is met at once), restore
(all guards fire as no-ops), release. -/
def cexSt7After : St :=
  routine_lock_release (pushEv .readScope (pushEv (.sleep (1/5))
    (offset_setValue (7/20) (pushEv (.sleep 1)
      (slow_offset_setValue 2 (pushEv .readScope
        {cexSt7 with lockHeld := true}))))))

/-- The regularity of a waveform whose detected peaks have constant spacing:
the spacing list is constant, so the variance—and hence `np.std`—is zero. -/
theorem regularity_of_constant_spacing (D : Detector) (bThr : ℚ) (w : Wave)
    (hbase : ¬ npMax w - npMin w < bThr)
    (hidx : D (negate w) (1/2) 50 = [100, 210, 320, 430, 540]) :
    find_peak_spacing_regularity D bThr w = ((0 : ℝ) : EReal) := by
  unfold find_peak_spacing_regularity
  rw [if_neg hbase, hidx]
  have hsp : peakSpacings [100, 210, 320, 430, 540] = [110, 110, 110, 110] := by
    norm_num [peakSpacings]
  rw [if_neg (by decide)]
  simp only [hsp]
  rw [if_neg (by norm_num [npMean])]
  have hvar : npVariance [110, 110, 110, 110] = 0 := by
    norm_num [npVariance, npMean]
  rw [npStd, hvar]
  norm_num

/-- C7: `find_peak_spacing_regularity` returns `+inf` (`⊤`) for every
waveform with fewer than 5 detected peaks, and for every flat waveform whose
peak-to-peak amplitude is below the baseline threshold (where
`number_of_peaks` returns 0); for a waveform whose detected peaks sit at
samples `[100, 210, 320, 430, 540]` (constant spacing 110) it returns
exactly `0`. -/
theorem C7_regularity_edge_cases :
    (∀ (D : Detector) (bThr : ℚ) (w : Wave),
      (D (negate w) (1/2) 50).length < 5 →
      find_peak_spacing_regularity D bThr w = ⊤) ∧
    (∀ (D : Detector) (bThr : ℚ) (w : Wave),
      npMax w - npMin w < bThr →
      number_of_peaks D bThr w = 0 ∧ find_peak_spacing_regularity D bThr w = ⊤) ∧
    (∀ (D : Detector) (bThr : ℚ) (w : Wave),
      ¬ npMax w - npMin w < bThr →
      D (negate w) (1/2) 50 = [100, 210, 320, 430, 540] →
      find_peak_spacing_regularity D bThr w = ((0 : ℝ) : EReal)) := by
  refine ⟨?_, ?_, ?_⟩
  · intro D bThr w h
    unfold find_peak_spacing_regularity
    split
    · rfl
    · rw [if_pos h]
  · intro D bThr w h
    constructor
    · unfold number_of_peaks
      rw [if_pos h]
    · unfold find_peak_spacing_regularity
      rw [if_pos h]
  · intro D bThr w hbase hidx
    exact regularity_of_constant_spacing D bThr w hbase hidx

/-- Witness for C7 at concrete inputs: a detector finding no peaks on the
waveform `[0, 5]`; a flat waveform `[0, 0]` below the baseline threshold 2;
and a detector finding the peaks `[100, 210, 320, 430, 540]` on `[0, 5]`. -/
theorem C7_regularity_edge_cases_witness :
    find_peak_spacing_regularity (fun _ _ _ => []) 2 [0, 5] = ⊤ ∧
    (number_of_peaks (fun _ _ _ => []) 2 [0, 0] = 0 ∧
      find_peak_spacing_regularity (fun _ _ _ => []) 2 [0, 0] = ⊤) ∧
    find_peak_spacing_regularity (fun _ _ _ => [100, 210, 320, 430, 540]) 2 [0, 5]
      = ((0 : ℝ) : EReal) := by
  refine ⟨?_, ?_, ?_⟩
  · exact C7_regularity_edge_cases.1 (fun _ _ _ => []) 2 [0, 5] (by decide)
  · exact C7_regularity_edge_cases.2.1 (fun _ _ _ => []) 2 [0, 0] (by norm_num [npMax, npMin])
  · exact C7_regularity_edge_cases.2.2 (fun _ _ _ => [100, 210, 320, 430, 540]) 2 [0, 5]
      (by norm_num [npMax, npMin]) rfl

/-- C10: `number_of_peaks` and `find_peak_spacing_regularity` run the same
detection procedure (same baseline threshold, same call
`peakutils.indexes(-wave, thres=0.5, min_dist=50)`), so whenever the
regularity is finite (not `⊤`), `number_of_peaks` reports at least 5 peaks
on the same waveform. -/
theorem C10_finite_regularity_needs_five_peaks
    (D : Detector) (bThr : ℚ) (w : Wave)
    (hfin : find_peak_spacing_regularity D bThr w ≠ ⊤) :
    5 ≤ number_of_peaks D bThr w := by
  unfold find_peak_spacing_regularity at hfin
  unfold number_of_peaks
  by_cases hbase : npMax w - npMin w < bThr
  · rw [if_pos hbase] at hfin
    exact absurd rfl hfin
  · rw [if_neg hbase] at hfin
    rw [if_neg hbase]
    by_cases hlen : (D (negate w) (1/2) 50).length < 5
    · rw [if_pos hlen] at hfin
      exact absurd rfl hfin
    · omega

/-- Witness for C10: a detector returning five peaks on the waveform
`[0, 5]`, whose regularity is finite (indeed zero). -/
theorem C10_finite_regularity_needs_five_peaks_witness :
    5 ≤ number_of_peaks (fun _ _ _ => [100, 210, 320, 430, 540]) 2 [0, 5] := by
  refine C10_finite_regularity_needs_five_peaks (fun _ _ _ => [100, 210, 320, 430, 540]) 2 [0, 5] ?_
  rw [regularity_of_constant_spacing (fun _ _ _ => [100, 210, 320, 430, 540]) 2 [0, 5]
    (by norm_num [npMax, npMin]) rfl]
  decide

/-- C8: on every PID enable request, the recenter write sequence
(`center := current_output`, `limit_lower := -current_output`,
`limit_upper := 1 - current_output`, with `current_output` read from
`/sigouts/0/offset`) is performed before the enable flag is written, and
after the enable write the offset monitor is started (running afterwards;
the spawn event appears after the enable write when it was not already
running). -/
theorem C8_recenter_before_enable (st : St) :
    (on_pid_enable_changed true st).trace
      = st.trace
        ++ [Ev.setPidCenter st.sigoutOffset,
            Ev.setPidLimitLower (-st.sigoutOffset),
            Ev.setPidLimitUpper (1 - st.sigoutOffset),
            Ev.setPidEnable true]
        ++ (if st.offsetMonRunning then [] else [Ev.startOffsetMon]) ∧
    (on_pid_enable_changed true st).pidCenter = st.sigoutOffset ∧
    (on_pid_enable_changed true st).pidLimitLower = -st.sigoutOffset ∧
    (on_pid_enable_changed true st).pidLimitUpper = 1 - st.sigoutOffset ∧
    (on_pid_enable_changed true st).pidEnable = true ∧
    (on_pid_enable_changed true st).offsetMonRunning = true := by
  unfold on_pid_enable_changed recenter_PID_output get_mdrec_output_offset
    start_offset_monitoring pushEv
  by_cases h : st.offsetMonRunning <;> simp [h]

theorem clamp_of_mem {x : ℚ} (h1 : 3/2 ≤ x) (h2 : x ≤ 13/2) :
    max (3/2) (min (13/2) x) = x := by
  rw [min_eq_right h2, max_eq_right h1]

theorem clamp_mem (x : ℚ) :
    3/2 ≤ max (3/2) (min (13/2) x) ∧ max (3/2) (min (13/2) x) ≤ 13/2 := by
  constructor
  · exact le_max_left _ _
  · exact max_le (by norm_num) (min_le_left _ _)

theorem clamp_idem (x : ℚ) :
    max (3/2) (min (13/2) (max (3/2) (min (13/2) x))) = max (3/2) (min (13/2) x) :=
  clamp_of_mem (clamp_mem x).1 (clamp_mem x).2

theorem rampLoop_run_trace (stepq : ℚ) (running faults : ℕ → Bool)
    (hr : ∀ j, running j = true) (hf : ∀ j, faults j = false) :
    ∀ (n i : ℕ) (st : St), ∃ st', rampLoop stepq running faults n i st = .ok st' ∧
      st'.trace = st.trace ++ rampExpectedTrace stepq n st.auxOffset ∧
      st'.lockHeld = st.lockHeld := by
  intro n
  induction n with
  | zero =>
    intro i st
    exact ⟨st, rfl, by simp [rampExpectedTrace], rfl⟩
  | succ n ih =>
    intro i st
    have hstep : rampLoop stepq running faults (n + 1) i st
        = rampLoop stepq running faults n (i + 1)
            (pushEv (.sleep 1)
              (set_slow_offset (max (3/2) (min (13/2) (st.auxOffset + stepq))) st)) := by
      rw [rampLoop]
      rw [hr i, hf i]
      rfl
    obtain ⟨st', hrun, htrace, hlock⟩ :=
      ih (i + 1)
        (pushEv (.sleep 1)
          (set_slow_offset (max (3/2) (min (13/2) (st.auxOffset + stepq))) st))
    refine ⟨st', by rw [hstep]; exact hrun, ?_, hlock⟩
    rw [htrace]
    simp only [pushEv, set_slow_offset, rampExpectedTrace, clamp_idem]
    simp [List.append_assoc]

theorem rampLoop_setAux_count (stepq : ℚ) (running faults : ℕ → Bool) :
    ∀ (n i : ℕ) (st : St),
      countSetAux (Except.finalSt (rampLoop stepq running faults n i st)).trace
        ≤ countSetAux st.trace + n := by
  intro n
  induction n with
  | zero =>
    intro i st
    simp [rampLoop, Except.finalSt]
  | succ n ih =>
    intro i st
    rw [rampLoop]
    by_cases hrun : running i
    · rw [if_pos hrun]
      by_cases hflt : faults i
      · rw [if_pos hflt]
        simp only [Except.finalSt]
        omega
      · rw [if_neg hflt]
        refine le_trans (ih (i + 1) _) ?_
        simp only [pushEv, set_slow_offset, countSetAux, List.filter_append,
          List.length_append]
        simp
        omega
    · rw [if_neg hrun]
      simp only [Except.finalSt]
      omega

theorem ramp_slow_offset_refused (direction : RampDir) (running faults : ℕ → Bool)
    (st : St) (hlock : st.lockHeld) :
    ramp_slow_offset direction running faults st = (.refused, st) := by
  unfold ramp_slow_offset routine_lock_tryAcquire
  rw [if_pos hlock]

theorem ramp_slow_offset_acquired (direction : RampDir) (running faults : ℕ → Bool)
    (st : St) (hlock : ¬ st.lockHeld) :
    ramp_slow_offset direction running faults st
      = match rampLoop (rampStepSize direction) running faults 15 0
            {st with lockHeld := true} with
        | .error st1 => (.raised, routine_lock_release st1)
        | .ok st1 => (.finished, routine_lock_release st1) := by
  unfold ramp_slow_offset routine_lock_tryAcquire
  rw [if_neg hlock]

/-- C9: on an auto-offset tick, a read-back output below 0.05 dispatches
the ramp with direction up and one above 0.95 with direction down; a ramp
that acquires the guard with the auto-offset flag up and no device fault
performs exactly 15 steps, each writing the previous slow offset plus the
±1 mV directional step clamped to `[1.5, 6.5]` followed by a 1 s sleep; in
general at most 15 steps are performed; and `set_slow_offset` clamps every
value to `[1.5, 6.5]` before applying it. -/
theorem C9_auto_offset_ramp_behaviour (running faults : ℕ → Bool) (st : St)
    (direction : RampDir) (v : ℚ) :
    (get_mdrec_output_offset st < 1/20 →
      auto_offset_tick running faults st = (ramp_slow_offset .up running faults st).2) ∧
    (get_mdrec_output_offset st > 19/20 →
      auto_offset_tick running faults st = (ramp_slow_offset .down running faults st).2) ∧
    (rampStepSize .up = 1/1000 ∧ rampStepSize .down = -(1/1000)) ∧
    (¬ st.lockHeld → (∀ j, running j = true) → (∀ j, faults j = false) →
      (ramp_slow_offset direction running faults st).1 = .finished ∧
      (ramp_slow_offset direction running faults st).2.trace
        = st.trace ++ rampExpectedTrace (rampStepSize direction) 15 st.auxOffset) ∧
    (countSetAux (ramp_slow_offset direction running faults st).2.trace
      ≤ countSetAux st.trace + 15) ∧
    ((set_slow_offset v st).auxOffset = max (3/2) (min (13/2) v) ∧
      (set_slow_offset v st).trace
        = st.trace ++ [Ev.setAux (max (3/2) (min (13/2) v))]) := by
  refine ⟨?_, ?_, ⟨rfl, rfl⟩, ?_, ?_, ?_⟩
  · intro h
    unfold auto_offset_tick
    rw [if_pos h]
  · intro h
    unfold auto_offset_tick
    have h2 : ¬ get_mdrec_output_offset st < 1/20 := by
      intro hcontra
      linarith
    rw [if_neg h2, if_pos h]
  · intro hlock hr hf
    obtain ⟨st', hrun, htrace, _⟩ :=
      rampLoop_run_trace (rampStepSize direction) running faults hr hf 15 0
        {st with lockHeld := true}
    rw [ramp_slow_offset_acquired direction running faults st hlock, hrun]
    exact ⟨rfl, by simpa [routine_lock_release] using htrace⟩
  · by_cases hlock : st.lockHeld
    · rw [ramp_slow_offset_refused direction running faults st hlock]
      exact Nat.le_add_right _ _
    · rw [ramp_slow_offset_acquired direction running faults st hlock]
      have hcnt := rampLoop_setAux_count (rampStepSize direction) running faults 15 0
        {st with lockHeld := true}
      revert hcnt
      cases hres : rampLoop (rampStepSize direction) running faults 15 0
          {st with lockHeld := true} with
      | ok stf =>
        intro hcnt
        simpa [Except.finalSt, routine_lock_release] using hcnt
      | error stf =>
        intro hcnt
        simpa [Except.finalSt, routine_lock_release] using hcnt
  · constructor
    · simp [set_slow_offset, pushEv]
    · simp [set_slow_offset, pushEv]

/-- Witness for C9: output offset 0.03 (below threshold) on a free lock,
slow offset 3 V, flag up and no faults. -/
theorem C9_auto_offset_ramp_behaviour_witness :
    (auto_offset_tick (fun _ => true) (fun _ => false) rampWitnessSt
      = (ramp_slow_offset .up (fun _ => true) (fun _ => false) rampWitnessSt).2) ∧
    ((ramp_slow_offset .up (fun _ => true) (fun _ => false) rampWitnessSt).1
      = .finished ∧
     (ramp_slow_offset .up (fun _ => true) (fun _ => false) rampWitnessSt).2.trace
      = rampWitnessSt.trace ++ rampExpectedTrace (rampStepSize .up) 15 rampWitnessSt.auxOffset) ∧
    (set_slow_offset 7 rampWitnessSt).auxOffset = max (3/2) (min (13/2) 7) := by
  obtain ⟨h1, _, _, h4, _, h6⟩ :=
    C9_auto_offset_ramp_behaviour (fun _ => true) (fun _ => false) rampWitnessSt .up 7
  have hlow : get_mdrec_output_offset rampWitnessSt < 1/20 := by
    norm_num [get_mdrec_output_offset, rampWitnessSt]
  have hfree : ¬ rampWitnessSt.lockHeld := by
    simp [rampWitnessSt]
  exact ⟨h1 hlow, h4 hfree (fun _ => rfl) (fun _ => rfl), h6.1⟩

/-- Counterexample to C4 as stated: with a worker that does NOT exit within
the join timeout (environment bit `false`) and the loop running, both stop
functions still return normally — no fault is raised, contrary to the
claim. -/
theorem C4_stop_counterexample :
    stopWitnessSt.offsetMonRunning = true ∧
    stop_offset_monitoring_checked false stopWitnessSt
      = .ok (stop_offset_monitoring stopWitnessSt) ∧
    stop_offset_monitoring_checked false stopWitnessSt
      ≠ .error .workerStillAlive ∧
    stopWitnessSt.autoOffsetRunning = true ∧
    stop_auto_offset_management_checked false stopWitnessSt
      = .ok (stop_auto_offset_management stopWitnessSt) ∧
    stop_auto_offset_management_checked false stopWitnessSt
      ≠ .error .workerStillAlive := by
  refine ⟨rfl, rfl, ?_, rfl, rfl, ?_⟩ <;> simp [stop_offset_monitoring_checked,
    stop_auto_offset_management_checked]

/-- C4 (amended): `stop()` lowers the cooperative cancellation flag and
joins the worker with a bounded timeout (2 s for the offset monitor, 3 s
for auto-offset management), but completes normally whether or not the
worker exited within the timeout — no fault is ever raised. -/
theorem C4_stop_sets_flag_and_never_faults (b : Bool) (st : St) :
    stop_offset_monitoring_checked b st = .ok (stop_offset_monitoring st) ∧
    (stop_offset_monitoring st).offsetMonRunning = false ∧
    (st.offsetMonRunning = true →
      (stop_offset_monitoring st).trace = st.trace ++ [Ev.joinWait 2]) ∧
    stop_auto_offset_management_checked b st = .ok (stop_auto_offset_management st) ∧
    (stop_auto_offset_management st).autoOffsetRunning = false ∧
    (st.autoOffsetRunning = true →
      (stop_auto_offset_management st).trace = st.trace ++ [Ev.joinWait 3]) := by
  refine ⟨rfl, ?_, ?_, rfl, ?_, ?_⟩
  · simp only [stop_offset_monitoring, pushEv]
    split
    · rfl
    · simp_all
  · intro h
    simp [stop_offset_monitoring, pushEv, h]
  · simp only [stop_auto_offset_management, pushEv]
    split
    · rfl
    · simp_all
  · intro h
    simp [stop_auto_offset_management, pushEv, h]

/-- Witness for C4 (amended) at the concrete running state. -/
theorem C4_stop_sets_flag_and_never_faults_witness :
    (stop_offset_monitoring stopWitnessSt).offsetMonRunning = false ∧
    (stop_offset_monitoring stopWitnessSt).trace
      = stopWitnessSt.trace ++ [Ev.joinWait 2] ∧
    (stop_auto_offset_management stopWitnessSt).autoOffsetRunning = false ∧
    (stop_auto_offset_management stopWitnessSt).trace
      = stopWitnessSt.trace ++ [Ev.joinWait 3] := by
  obtain ⟨_, h2, h3, _, h5, h6⟩ := C4_stop_sets_flag_and_never_faults false stopWitnessSt
  exact ⟨h2, h3 rfl, h5, h6 rfl⟩

/-- Counterexample to C3 as stated: an acquisition that raises exits with
the temporarily overridden settings still in place — the prior settings
`{sampling 5, length 4096, inputselect 5}` are not restored on the error
path. -/
theorem C3_restore_counterexample :
    read_scope_data 16384 9 9 (.error ()) ⟨⟨5, 4096, 5⟩, []⟩
      = .error ⟨⟨9, 16384, 9⟩,
          [.setTime 9, .setLength 16384, .setInputSelect 9, .acquire]⟩ ∧
    (⟨9, 16384, 9⟩ : ScopeSettings) ≠ ⟨5, 4096, 5⟩ := by
  exact ⟨rfl, by decide⟩

/-- C3 (amended): every successful acquisition via `read_scope_data` saves
the prior settings, temporarily overrides them and restores the saved
settings before returning; but on an acquisition error the exception
propagates with the overridden settings in place — the restore runs only on
the success path. -/
theorem C3_scope_restore_on_success (length inputselect sampling : ℤ)
    (w : Wave) (dt : ℚ) (st : ScopeSt) :
    (∃ st1, read_scope_data length inputselect sampling (.ok (w, dt)) st
        = .ok ((w, dt), st1) ∧
      st1.settings = st.settings ∧
      st1.trace = st.trace
        ++ [.setTime sampling, .setLength length, .setInputSelect inputselect,
            .acquire, .setTime st.settings.sampling, .setLength st.settings.length,
            .setInputSelect st.settings.inputselect]) ∧
    (∃ st2, read_scope_data length inputselect sampling (.error ()) st
        = .error st2 ∧
      st2.settings = ⟨sampling, length, inputselect⟩) := by
  refine ⟨⟨_, rfl, rfl, ?_⟩, ⟨_, rfl, rfl⟩⟩
  simp [set_scope_settings, read_scope_settings]

theorem frame12_refl (a : St) : Frame12 a a := by
  unfold Frame12
  exact ⟨rfl, rfl, rfl, rfl, rfl, rfl, rfl, rfl, rfl, rfl, rfl, rfl⟩

theorem frame12_trans {a b c : St} (h1 : Frame12 a b) (h2 : Frame12 b c) :
    Frame12 a c := by
  unfold Frame12 at h1 h2 ⊢
  obtain ⟨e1, e2, e3, e4, e5, e6, e7, e8, e9, e10, e11, e12⟩ := h1
  obtain ⟨f1, f2, f3, f4, f5, f6, f7, f8, f9, f10, f11, f12⟩ := h2
  exact ⟨e1.trans f1, e2.trans f2, e3.trans f3, e4.trans f4, e5.trans f5,
    e6.trans f6, e7.trans f7, e8.trans f8, e9.trans f9, e10.trans f10,
    e11.trans f11, e12.trans f12⟩

theorem pushEv_frame12 (e : Ev) (st : St) : Frame12 (pushEv e st) st := by
  unfold Frame12 pushEv
  exact ⟨rfl, rfl, rfl, rfl, rfl, rfl, rfl, rfl, rfl, rfl, rfl, rfl⟩

theorem slow_offset_setValue_frame12 (v : ℚ) (st : St) :
    Frame12 (slow_offset_setValue v st) st := by
  unfold Frame12 slow_offset_setValue on_slow_offset_changed pushEv
  split_ifs <;> exact ⟨rfl, rfl, rfl, rfl, rfl, rfl, rfl, rfl, rfl, rfl, rfl, rfl⟩

theorem offset_setValue_frame12 (v : ℚ) (st : St) :
    Frame12 (offset_setValue v st) st := by
  unfold Frame12 offset_setValue on_offset_changed pushEv
  split_ifs <;> exact ⟨rfl, rfl, rfl, rfl, rfl, rfl, rfl, rfl, rfl, rfl, rfl, rfl⟩

theorem mfProbeLoop_frame12 (D : Detector) (bThr stepV delayS thr stopV dirq : ℚ) :
    ∀ (fuel : ℕ) (c : ℚ) (reg : EReal) (a : ℕ) (env : MFEnv) (st : St)
      (res : Except St (Bool × MFEnv × St)),
      mfProbeLoop D bThr stepV delayS thr stopV dirq fuel c reg a env st = some res →
      Frame12 (exceptSt3 res) st := by
  intro fuel
  induction fuel with
  | zero =>
    intro c reg a env st res h
    rw [mfProbeLoop] at h
    split at h
    · exact absurd h (by simp)
    · rw [Option.some_inj] at h
      subst h
      exact frame12_refl st
  | succ fuel ih =>
    intro c reg a env st res h
    rw [mfProbeLoop] at h
    split at h
    · rcases env with _ | ⟨r, rest⟩
      · exact absurd h (by simp [readScope1])
      · rcases r with e | w
        · simp only [readScope1, Option.some_inj] at h
          subst h
          exact frame12_trans (frame12_trans (pushEv_frame12 _ _) (pushEv_frame12 _ _))
            (slow_offset_setValue_frame12 _ _)
        · simp only [readScope1] at h
          split at h
          · rw [Option.some_inj] at h
            subst h
            exact frame12_trans (frame12_trans (pushEv_frame12 _ _) (pushEv_frame12 _ _))
              (slow_offset_setValue_frame12 _ _)
          · refine frame12_trans (ih _ _ _ _ _ _ h) ?_
            exact frame12_trans (frame12_trans (pushEv_frame12 _ _) (pushEv_frame12 _ _))
              (slow_offset_setValue_frame12 _ _)
    · rw [Option.some_inj] at h
      subst h
      exact frame12_refl st

theorem mfCoarseLoop_frame12 (D : Detector) (bThr stepV delayS thr stopV : ℚ) :
    ∀ (fuel : ℕ) (c : ℚ) (env : MFEnv) (st : St)
      (res : Except St (Bool × MFEnv × St)),
      mfCoarseLoop D bThr stepV delayS thr stopV fuel c env st = some res →
      Frame12 (exceptSt3 res) st := by
  intro fuel
  induction fuel with
  | zero =>
    intro c env st res h
    rw [mfCoarseLoop] at h
    split at h
    · exact absurd h (by simp)
    · rw [Option.some_inj] at h
      subst h
      exact frame12_refl st
  | succ fuel ih =>
    intro c env st res h
    rw [mfCoarseLoop] at h
    split at h
    · rcases env with _ | ⟨r, rest⟩
      · exact absurd h (by simp [readScope1])
      · rcases r with e | w
        · simp only [readScope1, Option.some_inj] at h
          subst h
          exact pushEv_frame12 _ _
        · simp only [readScope1] at h
          split at h
          · rw [Option.some_inj] at h
            subst h
            exact pushEv_frame12 _ _
          · refine frame12_trans (ih _ _ _ _ h) ?_
            exact frame12_trans (frame12_trans (pushEv_frame12 _ _)
              (slow_offset_setValue_frame12 _ _)) (pushEv_frame12 _ _)
    · rw [Option.some_inj] at h
      subst h
      exact frame12_refl st

theorem mfFineLoop_frame12 (D : Detector) (bThr fineStep delayS fthr bound : ℚ) :
    ∀ (fuel : ℕ) (c : ℚ) (env : MFEnv) (st : St) (res : Except St (MFEnv × St)),
      mfFineLoop D bThr fineStep delayS fthr bound fuel c env st = some res →
      Frame12 (exceptSt2 res) st := by
  intro fuel
  induction fuel with
  | zero =>
    intro c env st res h
    rw [mfFineLoop] at h
    split at h
    · exact absurd h (by simp)
    · rw [Option.some_inj] at h
      subst h
      exact frame12_refl st
  | succ fuel ih =>
    intro c env st res h
    rw [mfFineLoop] at h
    split at h
    · rcases env with _ | ⟨r, rest⟩
      · exact absurd h (by simp [readScope1])
      · rcases r with e | w
        · simp only [readScope1, Option.some_inj] at h
          subst h
          exact pushEv_frame12 _ _
        · simp only [readScope1] at h
          split at h
          · rw [Option.some_inj] at h
            subst h
            exact pushEv_frame12 _ _
          · refine frame12_trans (ih _ _ _ _ h) ?_
            exact frame12_trans (frame12_trans (pushEv_frame12 _ _)
              (offset_setValue_frame12 _ _)) (pushEv_frame12 _ _)
    · rw [Option.some_inj] at h
      subst h
      exact frame12_refl st

/-!
## Field characterisations of the setters

For each widget setter used inside the routine: the field it owns receives
the requested value (whether or not the change-guard fires), and every
other claim-relevant field is untouched. -/

theorem dither_enable_setChecked_fields (b : Bool) (st : St) :
    (dither_enable_setChecked b st).ditherCheck = b ∧
    (dither_enable_setChecked b st).lockHeld = st.lockHeld ∧
    (dither_enable_setChecked b st).fgAmplitude = st.fgAmplitude ∧
    (dither_enable_setChecked b st).fgFrequency = st.fgFrequency ∧
    (dither_enable_setChecked b st).ampSpin = st.ampSpin ∧
    (dither_enable_setChecked b st).ampFine = st.ampFine ∧
    (dither_enable_setChecked b st).freqSpin = st.freqSpin ∧
    (dither_enable_setChecked b st).autoOffsetCheck = st.autoOffsetCheck ∧
    (dither_enable_setChecked b st).reflCheck = st.reflCheck ∧
    (dither_enable_setChecked b st).autoModeCheck = st.autoModeCheck ∧
    (dither_enable_setChecked b st).outputCheck = st.outputCheck ∧
    (dither_enable_setChecked b st).pidCheck = st.pidCheck ∧
    (dither_enable_setChecked b st).auxOffset = st.auxOffset ∧
    (dither_enable_setChecked b st).slowSpin = st.slowSpin ∧
    (dither_enable_setChecked b st).offSpin = st.offSpin := by
  unfold dither_enable_setChecked on_dither_enable_changed pushEv
  split_ifs with h <;> simp_all

theorem auto_offset_setChecked_fields (b : Bool) (st : St) :
    (auto_offset_setChecked b st).autoOffsetCheck = b ∧
    (auto_offset_setChecked b st).lockHeld = st.lockHeld ∧
    (auto_offset_setChecked b st).fgAmplitude = st.fgAmplitude ∧
    (auto_offset_setChecked b st).fgFrequency = st.fgFrequency ∧
    (auto_offset_setChecked b st).ampSpin = st.ampSpin ∧
    (auto_offset_setChecked b st).ampFine = st.ampFine ∧
    (auto_offset_setChecked b st).freqSpin = st.freqSpin ∧
    (auto_offset_setChecked b st).ditherCheck = st.ditherCheck ∧
    (auto_offset_setChecked b st).reflCheck = st.reflCheck ∧
    (auto_offset_setChecked b st).autoModeCheck = st.autoModeCheck ∧
    (auto_offset_setChecked b st).outputCheck = st.outputCheck ∧
    (auto_offset_setChecked b st).pidCheck = st.pidCheck ∧
    (auto_offset_setChecked b st).auxOffset = st.auxOffset ∧
    (auto_offset_setChecked b st).slowSpin = st.slowSpin ∧
    (auto_offset_setChecked b st).offSpin = st.offSpin := by
  unfold auto_offset_setChecked on_auto_offset_changed
    start_auto_offset_management stop_auto_offset_management pushEv
  split_ifs with h <;> simp_all

theorem monitor_reflection_setChecked_fields (b : Bool) (st : St) :
    (monitor_reflection_setChecked b st).reflCheck = b ∧
    (monitor_reflection_setChecked b st).lockHeld = st.lockHeld ∧
    (monitor_reflection_setChecked b st).fgAmplitude = st.fgAmplitude ∧
    (monitor_reflection_setChecked b st).fgFrequency = st.fgFrequency ∧
    (monitor_reflection_setChecked b st).ampSpin = st.ampSpin ∧
    (monitor_reflection_setChecked b st).ampFine = st.ampFine ∧
    (monitor_reflection_setChecked b st).freqSpin = st.freqSpin ∧
    (monitor_reflection_setChecked b st).ditherCheck = st.ditherCheck ∧
    (monitor_reflection_setChecked b st).autoOffsetCheck = st.autoOffsetCheck ∧
    (monitor_reflection_setChecked b st).autoModeCheck = st.autoModeCheck ∧
    (monitor_reflection_setChecked b st).outputCheck = st.outputCheck ∧
    (monitor_reflection_setChecked b st).pidCheck = st.pidCheck ∧
    (monitor_reflection_setChecked b st).auxOffset = st.auxOffset ∧
    (monitor_reflection_setChecked b st).slowSpin = st.slowSpin ∧
    (monitor_reflection_setChecked b st).offSpin = st.offSpin := by
  unfold monitor_reflection_setChecked on_monitor_reflection_changed
    start_reflection_monitoring stop_reflection_monitoring pushEv
  split_ifs with h <;> simp_all

theorem auto_mode_finder_setChecked_fields (b : Bool) (st : St) :
    (auto_mode_finder_setChecked b st).autoModeCheck = b ∧
    (auto_mode_finder_setChecked b st).lockHeld = st.lockHeld ∧
    (auto_mode_finder_setChecked b st).fgAmplitude = st.fgAmplitude ∧
    (auto_mode_finder_setChecked b st).fgFrequency = st.fgFrequency ∧
    (auto_mode_finder_setChecked b st).ampSpin = st.ampSpin ∧
    (auto_mode_finder_setChecked b st).ampFine = st.ampFine ∧
    (auto_mode_finder_setChecked b st).freqSpin = st.freqSpin ∧
    (auto_mode_finder_setChecked b st).ditherCheck = st.ditherCheck ∧
    (auto_mode_finder_setChecked b st).autoOffsetCheck = st.autoOffsetCheck ∧
    (auto_mode_finder_setChecked b st).reflCheck = st.reflCheck ∧
    (auto_mode_finder_setChecked b st).outputCheck = st.outputCheck ∧
    (auto_mode_finder_setChecked b st).pidCheck = st.pidCheck ∧
    (auto_mode_finder_setChecked b st).auxOffset = st.auxOffset ∧
    (auto_mode_finder_setChecked b st).slowSpin = st.slowSpin ∧
    (auto_mode_finder_setChecked b st).offSpin = st.offSpin := by
  unfold auto_mode_finder_setChecked on_auto_mode_finder_changed
    start_auto_mode_finder stop_auto_mode_finder pushEv
  split_ifs with h <;> simp_all

theorem output_setChecked_fields (b : Bool) (st : St) :
    (output_setChecked b st).outputCheck = b ∧
    (output_setChecked b st).lockHeld = st.lockHeld ∧
    (output_setChecked b st).fgAmplitude = st.fgAmplitude ∧
    (output_setChecked b st).fgFrequency = st.fgFrequency ∧
    (output_setChecked b st).ampSpin = st.ampSpin ∧
    (output_setChecked b st).ampFine = st.ampFine ∧
    (output_setChecked b st).freqSpin = st.freqSpin ∧
    (output_setChecked b st).ditherCheck = st.ditherCheck ∧
    (output_setChecked b st).autoOffsetCheck = st.autoOffsetCheck ∧
    (output_setChecked b st).reflCheck = st.reflCheck ∧
    (output_setChecked b st).autoModeCheck = st.autoModeCheck ∧
    (output_setChecked b st).pidCheck = st.pidCheck ∧
    (output_setChecked b st).auxOffset = st.auxOffset ∧
    (output_setChecked b st).slowSpin = st.slowSpin ∧
    (output_setChecked b st).offSpin = st.offSpin := by
  unfold output_setChecked on_output_toggled pushEv
  split_ifs with h <;> simp_all

theorem pid_enable_setChecked_fields (b : Bool) (st : St) :
    (pid_enable_setChecked b st).pidCheck = b ∧
    (pid_enable_setChecked b st).lockHeld = st.lockHeld ∧
    (pid_enable_setChecked b st).fgAmplitude = st.fgAmplitude ∧
    (pid_enable_setChecked b st).fgFrequency = st.fgFrequency ∧
    (pid_enable_setChecked b st).ampSpin = st.ampSpin ∧
    (pid_enable_setChecked b st).ampFine = st.ampFine ∧
    (pid_enable_setChecked b st).freqSpin = st.freqSpin ∧
    (pid_enable_setChecked b st).ditherCheck = st.ditherCheck ∧
    (pid_enable_setChecked b st).autoOffsetCheck = st.autoOffsetCheck ∧
    (pid_enable_setChecked b st).reflCheck = st.reflCheck ∧
    (pid_enable_setChecked b st).autoModeCheck = st.autoModeCheck ∧
    (pid_enable_setChecked b st).outputCheck = st.outputCheck ∧
    (pid_enable_setChecked b st).auxOffset = st.auxOffset ∧
    (pid_enable_setChecked b st).slowSpin = st.slowSpin := by
  unfold pid_enable_setChecked on_pid_enable_changed recenter_PID_output
    get_mdrec_output_offset start_offset_monitoring stop_offset_monitoring pushEv
  split_ifs with h <;> simp_all [apply_ite]

theorem disable_pid_fields (st : St) :
    (disable_pid st).pidCheck = false ∧
    (disable_pid st).lockHeld = st.lockHeld ∧
    (disable_pid st).fgAmplitude = st.fgAmplitude ∧
    (disable_pid st).fgFrequency = st.fgFrequency ∧
    (disable_pid st).ampSpin = st.ampSpin ∧
    (disable_pid st).ampFine = st.ampFine ∧
    (disable_pid st).freqSpin = st.freqSpin ∧
    (disable_pid st).ditherCheck = st.ditherCheck ∧
    (disable_pid st).autoOffsetCheck = st.autoOffsetCheck ∧
    (disable_pid st).reflCheck = st.reflCheck ∧
    (disable_pid st).autoModeCheck = st.autoModeCheck ∧
    (disable_pid st).outputCheck = st.outputCheck ∧
    (disable_pid st).auxOffset = st.auxOffset ∧
    (disable_pid st).slowSpin = st.slowSpin := by
  unfold disable_pid
  obtain ⟨h1, h2, h3, h4, h5, h6, h7, h8, h9, h10, h11, h12, h13, h14⟩ :=
    pid_enable_setChecked_fields false st
  split_ifs with h <;> simp_all

theorem enable_pid_fields (st : St) :
    (enable_pid st).pidCheck = true ∧
    (enable_pid st).lockHeld = st.lockHeld ∧
    (enable_pid st).fgAmplitude = st.fgAmplitude ∧
    (enable_pid st).fgFrequency = st.fgFrequency ∧
    (enable_pid st).ampSpin = st.ampSpin ∧
    (enable_pid st).ampFine = st.ampFine ∧
    (enable_pid st).freqSpin = st.freqSpin ∧
    (enable_pid st).ditherCheck = st.ditherCheck ∧
    (enable_pid st).autoOffsetCheck = st.autoOffsetCheck ∧
    (enable_pid st).reflCheck = st.reflCheck ∧
    (enable_pid st).autoModeCheck = st.autoModeCheck ∧
    (enable_pid st).outputCheck = st.outputCheck ∧
    (enable_pid st).auxOffset = st.auxOffset ∧
    (enable_pid st).slowSpin = st.slowSpin := by
  unfold enable_pid
  obtain ⟨h1, h2, h3, h4, h5, h6, h7, h8, h9, h10, h11, h12, h13, h14⟩ :=
    pid_enable_setChecked_fields true st
  split_ifs with h <;> simp_all

theorem start_offset_monitoring_fields (st : St) :
    (start_offset_monitoring st).pidCheck = st.pidCheck ∧
    (start_offset_monitoring st).lockHeld = st.lockHeld ∧
    (start_offset_monitoring st).fgAmplitude = st.fgAmplitude ∧
    (start_offset_monitoring st).fgFrequency = st.fgFrequency ∧
    (start_offset_monitoring st).ampSpin = st.ampSpin ∧
    (start_offset_monitoring st).ampFine = st.ampFine ∧
    (start_offset_monitoring st).freqSpin = st.freqSpin ∧
    (start_offset_monitoring st).ditherCheck = st.ditherCheck ∧
    (start_offset_monitoring st).autoOffsetCheck = st.autoOffsetCheck ∧
    (start_offset_monitoring st).reflCheck = st.reflCheck ∧
    (start_offset_monitoring st).autoModeCheck = st.autoModeCheck ∧
    (start_offset_monitoring st).outputCheck = st.outputCheck ∧
    (start_offset_monitoring st).auxOffset = st.auxOffset ∧
    (start_offset_monitoring st).slowSpin = st.slowSpin ∧
    (start_offset_monitoring st).offSpin = st.offSpin := by
  unfold start_offset_monitoring pushEv
  split_ifs with h <;> simp_all

theorem amplitude_fine_setValue_fields (v : ℤ) (st : St) :
    (amplitude_fine_setValue v st).ampFine = v ∧
    (amplitude_fine_setValue v st).lockHeld = st.lockHeld ∧
    (amplitude_fine_setValue v st).fgFrequency = st.fgFrequency ∧
    (amplitude_fine_setValue v st).ampSpin = st.ampSpin ∧
    (amplitude_fine_setValue v st).freqSpin = st.freqSpin ∧
    (amplitude_fine_setValue v st).ditherCheck = st.ditherCheck ∧
    (amplitude_fine_setValue v st).autoOffsetCheck = st.autoOffsetCheck ∧
    (amplitude_fine_setValue v st).reflCheck = st.reflCheck ∧
    (amplitude_fine_setValue v st).autoModeCheck = st.autoModeCheck ∧
    (amplitude_fine_setValue v st).outputCheck = st.outputCheck ∧
    (amplitude_fine_setValue v st).pidCheck = st.pidCheck ∧
    (amplitude_fine_setValue v st).auxOffset = st.auxOffset ∧
    (amplitude_fine_setValue v st).slowSpin = st.slowSpin ∧
    (amplitude_fine_setValue v st).offSpin = st.offSpin := by
  unfold amplitude_fine_setValue on_amplitude_fine_changed pushEv
  split_ifs with h <;> simp_all

theorem amplitude_setValue_fields (v : ℚ) (st : St) :
    (amplitude_setValue v st).ampSpin = v ∧
    (amplitude_setValue v st).lockHeld = st.lockHeld ∧
    (amplitude_setValue v st).fgFrequency = st.fgFrequency ∧
    (amplitude_setValue v st).ampFine = st.ampFine ∧
    (amplitude_setValue v st).freqSpin = st.freqSpin ∧
    (amplitude_setValue v st).ditherCheck = st.ditherCheck ∧
    (amplitude_setValue v st).autoOffsetCheck = st.autoOffsetCheck ∧
    (amplitude_setValue v st).reflCheck = st.reflCheck ∧
    (amplitude_setValue v st).autoModeCheck = st.autoModeCheck ∧
    (amplitude_setValue v st).outputCheck = st.outputCheck ∧
    (amplitude_setValue v st).pidCheck = st.pidCheck ∧
    (amplitude_setValue v st).auxOffset = st.auxOffset ∧
    (amplitude_setValue v st).slowSpin = st.slowSpin ∧
    (amplitude_setValue v st).offSpin = st.offSpin := by
  unfold amplitude_setValue on_amplitude_changed pushEv
  split_ifs with h <;> simp_all

theorem freq_setValue_fields (v : ℚ) (st : St) :
    (freq_setValue v st).freqSpin = v ∧
    (freq_setValue v st).lockHeld = st.lockHeld ∧
    (freq_setValue v st).fgAmplitude = st.fgAmplitude ∧
    (freq_setValue v st).ampSpin = st.ampSpin ∧
    (freq_setValue v st).ampFine = st.ampFine ∧
    (freq_setValue v st).ditherCheck = st.ditherCheck ∧
    (freq_setValue v st).autoOffsetCheck = st.autoOffsetCheck ∧
    (freq_setValue v st).reflCheck = st.reflCheck ∧
    (freq_setValue v st).autoModeCheck = st.autoModeCheck ∧
    (freq_setValue v st).outputCheck = st.outputCheck ∧
    (freq_setValue v st).pidCheck = st.pidCheck ∧
    (freq_setValue v st).auxOffset = st.auxOffset ∧
    (freq_setValue v st).slowSpin = st.slowSpin ∧
    (freq_setValue v st).offSpin = st.offSpin := by
  unfold freq_setValue on_freq_changed pushEv
  split_ifs with h <;> simp_all

theorem slow_offset_fine_setValue_fields (v : ℤ) (st : St) :
    (slow_offset_fine_setValue v st).lockHeld = st.lockHeld ∧
    (slow_offset_fine_setValue v st).fgAmplitude = st.fgAmplitude ∧
    (slow_offset_fine_setValue v st).fgFrequency = st.fgFrequency ∧
    (slow_offset_fine_setValue v st).ampSpin = st.ampSpin ∧
    (slow_offset_fine_setValue v st).ampFine = st.ampFine ∧
    (slow_offset_fine_setValue v st).freqSpin = st.freqSpin ∧
    (slow_offset_fine_setValue v st).ditherCheck = st.ditherCheck ∧
    (slow_offset_fine_setValue v st).autoOffsetCheck = st.autoOffsetCheck ∧
    (slow_offset_fine_setValue v st).reflCheck = st.reflCheck ∧
    (slow_offset_fine_setValue v st).autoModeCheck = st.autoModeCheck ∧
    (slow_offset_fine_setValue v st).outputCheck = st.outputCheck ∧
    (slow_offset_fine_setValue v st).pidCheck = st.pidCheck ∧
    (slow_offset_fine_setValue v st).offSpin = st.offSpin := by
  unfold slow_offset_fine_setValue on_slow_offset_fine_changed pushEv
  split_ifs with h <;> simp_all

theorem slow_offset_setValue_other_fields (v : ℚ) (st : St) :
    (slow_offset_setValue v st).slowSpin = v ∧
    (slow_offset_setValue v st).offSpin = st.offSpin := by
  unfold slow_offset_setValue on_slow_offset_changed pushEv
  split_ifs with h <;> simp_all

theorem offset_setValue_other_fields (v : ℚ) (st : St) :
    (offset_setValue v st).auxOffset = st.auxOffset ∧
    (offset_setValue v st).slowSpin = st.slowSpin := by
  unfold offset_setValue on_offset_changed pushEv
  split_ifs with h <;> simp_all

theorem routine_lock_release_fields (st : St) :
    (routine_lock_release st).lockHeld = false ∧
    (routine_lock_release st).fgAmplitude = st.fgAmplitude ∧
    (routine_lock_release st).fgFrequency = st.fgFrequency ∧
    (routine_lock_release st).ditherCheck = st.ditherCheck ∧
    (routine_lock_release st).autoOffsetCheck = st.autoOffsetCheck ∧
    (routine_lock_release st).reflCheck = st.reflCheck ∧
    (routine_lock_release st).autoModeCheck = st.autoModeCheck ∧
    (routine_lock_release st).outputCheck = st.outputCheck ∧
    (routine_lock_release st).pidCheck = st.pidCheck ∧
    (routine_lock_release st).auxOffset = st.auxOffset ∧
    (routine_lock_release st).slowSpin = st.slowSpin := by
  unfold routine_lock_release
  exact ⟨rfl, rfl, rfl, rfl, rfl, rfl, rfl, rfl, rfl, rfl, rfl⟩

/-- Amplitude-synchronisation facts for the restore step: zeroing the fine
slider leaves the device amplitude either untouched (guard) or equal to the
base spinbox over 1000. -/
theorem amplitude_fine_setValue_zero_sync (st : St) :
    (amplitude_fine_setValue 0 st).fgAmplitude = st.fgAmplitude ∨
    (amplitude_fine_setValue 0 st).fgAmplitude
      = (amplitude_fine_setValue 0 st).ampSpin / 1000 := by
  unfold amplitude_fine_setValue on_amplitude_fine_changed pushEv
  split_ifs with h h2
  · exact .inl rfl
  · right
    simp
  · right
    simp

/-- Setting the amplitude spinbox preserves the synchronisation
disjunction. -/
theorem amplitude_setValue_sync (v : ℚ) (st : St) (A : ℚ)
    (hfine : st.ampFine = 0)
    (hd : st.fgAmplitude = A ∨ st.fgAmplitude = st.ampSpin / 1000) :
    (amplitude_setValue v st).fgAmplitude = A ∨
    (amplitude_setValue v st).fgAmplitude = (amplitude_setValue v st).ampSpin / 1000 := by
  unfold amplitude_setValue on_amplitude_changed pushEv
  split_ifs with h h2
  · exact hd
  · right
    simp [hfine]
  · right
    simp [hfine]

/-- Restoring the amplitude spinbox to `1000 * A` with the fine slider at
zero restores the device amplitude to `A` exactly, in both guard cases. -/
theorem amplitude_setValue_restores (st : St) (A : ℚ)
    (hfine : st.ampFine = 0)
    (hd : st.fgAmplitude = A ∨ st.fgAmplitude = st.ampSpin / 1000) :
    (amplitude_setValue (A * 1000) st).fgAmplitude = A := by
  unfold amplitude_setValue on_amplitude_changed pushEv
  split_ifs with h h2
  · rcases hd with hd | hd
    · exact hd
    · rw [hd, h]
      norm_num
  · simp [hfine]
  · simp [hfine]

/-- The frequency analogue of the synchronisation disjunction. -/
theorem freq_setValue_sync (v : ℚ) (st : St) (F : ℚ)
    (hd : st.fgFrequency = F ∨ st.fgFrequency = st.freqSpin) :
    (freq_setValue v st).fgFrequency = F ∨
    (freq_setValue v st).fgFrequency = (freq_setValue v st).freqSpin := by
  unfold freq_setValue on_freq_changed pushEv
  split_ifs with h
  · exact hd
  · right
    rfl

/-- Restoring the frequency spinbox to the snapshot restores the device
frequency exactly, in both guard cases. -/
theorem freq_setValue_restores (st : St) (F : ℚ)
    (hd : st.fgFrequency = F ∨ st.fgFrequency = st.freqSpin) :
    (freq_setValue F st).fgFrequency = F := by
  unfold freq_setValue on_freq_changed pushEv
  split_ifs with h
  · rcases hd with hd | hd
    · exact hd
    · rw [hd, h]
  · rfl

/-- The guarded PID disable at the head of the routine equals
`disable_pid` itself (which carries the same guard). -/
theorem if_pidCheck_disable (st : St) :
    (if st.pidCheck then disable_pid st else st) = disable_pid st := by
  split_ifs with h
  · rfl
  · unfold disable_pid
    rw [if_neg h]

/-- State of the routine after the suppression/configuration prefix: all
suppressed toggles are down, the FG output is up, the amplitude fine slider
is zero, the lock is untouched, and the device amplitude/frequency are
either untouched (all change-guards fired) or synchronised with their
spinbox mirrors. -/
theorem mfPrefix_facts (MFS : ModeFindingSettings) (st : St) :
    (mfPrefix MFS st).ditherCheck = false ∧
    (mfPrefix MFS st).autoOffsetCheck = false ∧
    (mfPrefix MFS st).reflCheck = false ∧
    (mfPrefix MFS st).autoModeCheck = false ∧
    (mfPrefix MFS st).outputCheck = true ∧
    (mfPrefix MFS st).pidCheck = false ∧
    (mfPrefix MFS st).ampFine = 0 ∧
    (mfPrefix MFS st).lockHeld = st.lockHeld ∧
    ((mfPrefix MFS st).fgAmplitude = st.fgAmplitude ∨
      (mfPrefix MFS st).fgAmplitude = (mfPrefix MFS st).ampSpin / 1000) ∧
    ((mfPrefix MFS st).fgFrequency = st.fgFrequency ∨
      (mfPrefix MFS st).fgFrequency = (mfPrefix MFS st).freqSpin) := by
  have hpfx : mfPrefix MFS st
      = slow_offset_fine_setValue 0 (output_setChecked true (freq_setValue MFS.fgFrequencyHz
          (amplitude_setValue MFS.fgAmplitudeMv (amplitude_fine_setValue 0
            (auto_mode_finder_setChecked false (monitor_reflection_setChecked false
              (auto_offset_setChecked false (dither_enable_setChecked false
                (disable_pid st))))))))) := by
    unfold mfPrefix
    rw [if_pidCheck_disable]
  rw [hpfx]
  obtain ⟨e1PC, e1L, e1FA, e1FF, e1AS, e1AF, e1FS, e1DC, e1AC, e1RC, e1MC, e1OC, _, _⟩ :=
    disable_pid_fields st
  obtain ⟨e2DC, e2L, e2FA, e2FF, e2AS, e2AF, e2FS, e2AC, e2RC, e2MC, e2OC, e2PC, _, _, _⟩ :=
    dither_enable_setChecked_fields false (disable_pid st)
  obtain ⟨e3AC, e3L, e3FA, e3FF, e3AS, e3AF, e3FS, e3DC, e3RC, e3MC, e3OC, e3PC, _, _, _⟩ :=
    auto_offset_setChecked_fields false (dither_enable_setChecked false (disable_pid st))
  obtain ⟨e4RC, e4L, e4FA, e4FF, e4AS, e4AF, e4FS, e4DC, e4AC, e4MC, e4OC, e4PC, _, _, _⟩ :=
    monitor_reflection_setChecked_fields false (auto_offset_setChecked false
      (dither_enable_setChecked false (disable_pid st)))
  obtain ⟨e5MC, e5L, e5FA, e5FF, e5AS, e5AF, e5FS, e5DC, e5AC, e5RC, e5OC, e5PC, _, _, _⟩ :=
    auto_mode_finder_setChecked_fields false (monitor_reflection_setChecked false
      (auto_offset_setChecked false (dither_enable_setChecked false (disable_pid st))))
  obtain ⟨e6AF, e6L, e6FF, e6AS, e6FS, e6DC, e6AC, e6RC, e6MC, e6OC, e6PC, _, _, _⟩ :=
    amplitude_fine_setValue_fields 0 (auto_mode_finder_setChecked false
      (monitor_reflection_setChecked false (auto_offset_setChecked false
        (dither_enable_setChecked false (disable_pid st)))))
  have e6sync :=
    amplitude_fine_setValue_zero_sync (auto_mode_finder_setChecked false
      (monitor_reflection_setChecked false (auto_offset_setChecked false
        (dither_enable_setChecked false (disable_pid st)))))
  obtain ⟨e7AS, e7L, e7FF, e7AF, e7FS, e7DC, e7AC, e7RC, e7MC, e7OC, e7PC, _, _, _⟩ :=
    amplitude_setValue_fields MFS.fgAmplitudeMv (amplitude_fine_setValue 0
      (auto_mode_finder_setChecked false (monitor_reflection_setChecked false
        (auto_offset_setChecked false (dither_enable_setChecked false (disable_pid st))))))
  have e7sync := amplitude_setValue_sync MFS.fgAmplitudeMv _ st.fgAmplitude e6AF
    (e6sync.imp (fun h => by rw [h, e5FA, e4FA, e3FA, e2FA, e1FA]) (fun h => h))
  obtain ⟨e8FS, e8L, e8FA, e8AS, e8AF, e8DC, e8AC, e8RC, e8MC, e8OC, e8PC, _, _, _⟩ :=
    freq_setValue_fields MFS.fgFrequencyHz (amplitude_setValue MFS.fgAmplitudeMv
      (amplitude_fine_setValue 0 (auto_mode_finder_setChecked false
        (monitor_reflection_setChecked false (auto_offset_setChecked false
          (dither_enable_setChecked false (disable_pid st)))))))
  have e8sync := freq_setValue_sync MFS.fgFrequencyHz _ st.fgFrequency
    (.inl (by rw [e7FF, e6FF, e5FF, e4FF, e3FF, e2FF, e1FF]))
  obtain ⟨e9OC, e9L, e9FA, e9FF, e9AS, e9AF, e9FS, e9DC, e9AC, e9RC, e9MC, e9PC, _, _, _⟩ :=
    output_setChecked_fields true (freq_setValue MFS.fgFrequencyHz
      (amplitude_setValue MFS.fgAmplitudeMv (amplitude_fine_setValue 0
        (auto_mode_finder_setChecked false (monitor_reflection_setChecked false
          (auto_offset_setChecked false (dither_enable_setChecked false
            (disable_pid st))))))))
  obtain ⟨eaL, eaFA, eaFF, eaAS, eaAF, eaFS, eaDC, eaAC, eaRC, eaMC, eaOC, eaPC, _⟩ :=
    slow_offset_fine_setValue_fields 0 (output_setChecked true
      (freq_setValue MFS.fgFrequencyHz (amplitude_setValue MFS.fgAmplitudeMv
        (amplitude_fine_setValue 0 (auto_mode_finder_setChecked false
          (monitor_reflection_setChecked false (auto_offset_setChecked false
            (dither_enable_setChecked false (disable_pid st)))))))))
  refine ⟨?_, ?_, ?_, ?_, ?_, ?_, ?_, ?_, ?_, ?_⟩
  · rw [eaDC, e9DC, e8DC, e7DC, e6DC, e5DC, e4DC, e3DC, e2DC]
  · rw [eaAC, e9AC, e8AC, e7AC, e6AC, e5AC, e4AC, e3AC]
  · rw [eaRC, e9RC, e8RC, e7RC, e6RC, e5RC, e4RC]
  · rw [eaMC, e9MC, e8MC, e7MC, e6MC, e5MC]
  · rw [eaOC, e9OC]
  · rw [eaPC, e9PC, e8PC, e7PC, e6PC, e5PC, e4PC, e3PC, e2PC, e1PC]
  · rw [eaAF, e9AF, e8AF, e7AF, e6AF]
  · rw [eaL, e9L, e8L, e7L, e6L, e5L, e4L, e3L, e2L, e1L]
  · rcases e7sync with h | h
    · exact .inl (by rw [eaFA, e9FA, e8FA, h])
    · exact .inr (by rw [eaFA, e9FA, e8FA, h, eaAS, e9AS, e8AS])
  · rcases e8sync with h | h
    · exact .inl (by rw [eaFF, e9FF, h])
    · exact .inr (by rw [eaFF, e9FF, h, eaFS, e9FS])

/-- The initial check (read, regularity decision, directional probe)
preserves the loop-invariant fields. -/
theorem mfInitialCheck_frame12 (D : Detector) (bThr : ℚ) (P : MFParams)
    (stopV : ℚ) (env : MFEnv) (st : St) (res : Except St (Bool × MFEnv × St))
    (h : mfInitialCheck D bThr P stopV env st = some res) :
    Frame12 (exceptSt3 res) st := by
  unfold mfInitialCheck at h
  rcases env with _ | ⟨r, rest⟩
  · exact absurd h (by simp [readScope1])
  · rcases r with e | w
    · simp only [readScope1, Option.some_inj] at h
      subst h
      exact pushEv_frame12 _ _
    · simp only [readScope1] at h
      split at h
      · split at h
        · rw [Option.some_inj] at h
          subst h
          exact pushEv_frame12 _ _
        · rcases rest with _ | ⟨r2, rest2⟩
          · exact absurd h (by simp [readScope1])
          · rcases r2 with e2 | w2
            · simp only [readScope1, Option.some_inj] at h
              subst h
              exact frame12_trans (frame12_trans (pushEv_frame12 _ _)
                (slow_offset_setValue_frame12 _ _)) (pushEv_frame12 _ _)
            · simp only [readScope1] at h
              refine frame12_trans (mfProbeLoop_frame12 _ _ _ _ _ _ _ _ _ _ _ _ _ _ h) ?_
              exact frame12_trans (frame12_trans (pushEv_frame12 _ _)
                (slow_offset_setValue_frame12 _ _)) (pushEv_frame12 _ _)
      · rw [Option.some_inj] at h
        subst h
        exact pushEv_frame12 _ _

/-- State after the restoration epilogue: frequency restored exactly, the
device amplitude untouched, each toggle back to its snapshot, the lock and
both offsets untouched. -/
theorem mfRestore_fields (prevF : ℚ) (isPid isDither isAO isRefl isFgOut isAMF : Bool)
    (st : St)
    (hDC : st.ditherCheck = false) (hAC : st.autoOffsetCheck = false)
    (hRC : st.reflCheck = false) (hMC : st.autoModeCheck = false)
    (hOC : st.outputCheck = true) (hPC : st.pidCheck = false)
    (hFF : st.fgFrequency = prevF ∨ st.fgFrequency = st.freqSpin) :
    (mfRestore prevF isPid isDither isAO isRefl isFgOut isAMF st).fgFrequency = prevF ∧
    (mfRestore prevF isPid isDither isAO isRefl isFgOut isAMF st).fgAmplitude
      = st.fgAmplitude ∧
    (mfRestore prevF isPid isDither isAO isRefl isFgOut isAMF st).ditherCheck = isDither ∧
    (mfRestore prevF isPid isDither isAO isRefl isFgOut isAMF st).autoOffsetCheck = isAO ∧
    (mfRestore prevF isPid isDither isAO isRefl isFgOut isAMF st).reflCheck = isRefl ∧
    (mfRestore prevF isPid isDither isAO isRefl isFgOut isAMF st).autoModeCheck = isAMF ∧
    (mfRestore prevF isPid isDither isAO isRefl isFgOut isAMF st).outputCheck = isFgOut ∧
    (mfRestore prevF isPid isDither isAO isRefl isFgOut isAMF st).pidCheck = isPid ∧
    (mfRestore prevF isPid isDither isAO isRefl isFgOut isAMF st).lockHeld = st.lockHeld ∧
    (mfRestore prevF isPid isDither isAO isRefl isFgOut isAMF st).auxOffset
      = st.auxOffset ∧
    (mfRestore prevF isPid isDither isAO isRefl isFgOut isAMF st).slowSpin
      = st.slowSpin := by
  unfold mfRestore
  obtain ⟨r1FS, r1L, r1FA, r1AS, r1AF, r1DC, r1AC, r1RC, r1MC, r1OC, r1PC, r1AX, r1SS, _⟩ :=
    freq_setValue_fields prevF st
  have r1FF := freq_setValue_restores st prevF hFF
  set s1 := freq_setValue prevF st with hs1
  have g2 : ∀ s : St, s = (if isFgOut then s1 else output_setChecked false s1) →
      s.outputCheck = isFgOut ∧ s.fgFrequency = s1.fgFrequency ∧
      s.fgAmplitude = s1.fgAmplitude ∧ s.ditherCheck = s1.ditherCheck ∧
      s.autoOffsetCheck = s1.autoOffsetCheck ∧ s.reflCheck = s1.reflCheck ∧
      s.autoModeCheck = s1.autoModeCheck ∧ s.pidCheck = s1.pidCheck ∧
      s.lockHeld = s1.lockHeld ∧ s.auxOffset = s1.auxOffset ∧
      s.slowSpin = s1.slowSpin := by
    intro s hs
    obtain ⟨f1, f2, f3, f4, f5, f6, f7, f8, f9, f10, f11, f12, f13, f14, f15⟩ :=
      output_setChecked_fields false s1
    cases isFgOut with
    | true =>
      rw [if_pos rfl] at hs
      subst hs
      exact ⟨by rw [r1OC, hOC], rfl, rfl, rfl, rfl, rfl, rfl, rfl, rfl, rfl, rfl⟩
    | false =>
      rw [if_neg (by simp)] at hs
      subst hs
      exact ⟨f1, f4, f3, f8, f9, f10, f11, f12, f2, f13, f14⟩
  obtain ⟨g2OC, g2FF, g2FA, g2DC, g2AC, g2RC, g2MC, g2PC, g2L, g2AX, g2SS⟩ :=
    g2 _ rfl
  set s2 := if isFgOut then s1 else output_setChecked false s1 with hs2
  have g3 : ∀ s : St, s = (if isDither then dither_enable_setChecked true s2 else s2) →
      s.ditherCheck = isDither ∧ s.fgFrequency = s2.fgFrequency ∧
      s.fgAmplitude = s2.fgAmplitude ∧ s.outputCheck = s2.outputCheck ∧
      s.autoOffsetCheck = s2.autoOffsetCheck ∧ s.reflCheck = s2.reflCheck ∧
      s.autoModeCheck = s2.autoModeCheck ∧ s.pidCheck = s2.pidCheck ∧
      s.lockHeld = s2.lockHeld ∧ s.auxOffset = s2.auxOffset ∧
      s.slowSpin = s2.slowSpin := by
    intro s hs
    obtain ⟨f1, f2, f3, f4, f5, f6, f7, f8, f9, f10, f11, f12, f13, f14, f15⟩ :=
      dither_enable_setChecked_fields true s2
    cases isDither with
    | true =>
      rw [if_pos rfl] at hs
      subst hs
      exact ⟨f1, f4, f3, f11, f8, f9, f10, f12, f2, f13, f14⟩
    | false =>
      rw [if_neg (by simp)] at hs
      subst hs
      exact ⟨by rw [g2DC, r1DC, hDC], rfl, rfl, rfl, rfl, rfl, rfl, rfl, rfl, rfl, rfl⟩
  obtain ⟨g3DC, g3FF, g3FA, g3OC, g3AC, g3RC, g3MC, g3PC, g3L, g3AX, g3SS⟩ :=
    g3 _ rfl
  set s3 := if isDither then dither_enable_setChecked true s2 else s2 with hs3
  have g4 : ∀ s : St, s = (if isAO then auto_offset_setChecked true s3 else s3) →
      s.autoOffsetCheck = isAO ∧ s.fgFrequency = s3.fgFrequency ∧
      s.fgAmplitude = s3.fgAmplitude ∧ s.outputCheck = s3.outputCheck ∧
      s.ditherCheck = s3.ditherCheck ∧ s.reflCheck = s3.reflCheck ∧
      s.autoModeCheck = s3.autoModeCheck ∧ s.pidCheck = s3.pidCheck ∧
      s.lockHeld = s3.lockHeld ∧ s.auxOffset = s3.auxOffset ∧
      s.slowSpin = s3.slowSpin := by
    intro s hs
    obtain ⟨f1, f2, f3, f4, f5, f6, f7, f8, f9, f10, f11, f12, f13, f14, f15⟩ :=
      auto_offset_setChecked_fields true s3
    cases isAO with
    | true =>
      rw [if_pos rfl] at hs
      subst hs
      exact ⟨f1, f4, f3, f11, f8, f9, f10, f12, f2, f13, f14⟩
    | false =>
      rw [if_neg (by simp)] at hs
      subst hs
      exact ⟨by rw [g3AC, g2AC, r1AC, hAC], rfl, rfl, rfl, rfl, rfl, rfl, rfl, rfl, rfl,
        rfl⟩
  obtain ⟨g4AC, g4FF, g4FA, g4OC, g4DC, g4RC, g4MC, g4PC, g4L, g4AX, g4SS⟩ :=
    g4 _ rfl
  set s4 := if isAO then auto_offset_setChecked true s3 else s3 with hs4
  have g5 : ∀ s : St, s = (if isRefl then monitor_reflection_setChecked true s4 else s4) →
      s.reflCheck = isRefl ∧ s.fgFrequency = s4.fgFrequency ∧
      s.fgAmplitude = s4.fgAmplitude ∧ s.outputCheck = s4.outputCheck ∧
      s.ditherCheck = s4.ditherCheck ∧ s.autoOffsetCheck = s4.autoOffsetCheck ∧
      s.autoModeCheck = s4.autoModeCheck ∧ s.pidCheck = s4.pidCheck ∧
      s.lockHeld = s4.lockHeld ∧ s.auxOffset = s4.auxOffset ∧
      s.slowSpin = s4.slowSpin := by
    intro s hs
    obtain ⟨f1, f2, f3, f4, f5, f6, f7, f8, f9, f10, f11, f12, f13, f14, f15⟩ :=
      monitor_reflection_setChecked_fields true s4
    cases isRefl with
    | true =>
      rw [if_pos rfl] at hs
      subst hs
      exact ⟨f1, f4, f3, f11, f8, f9, f10, f12, f2, f13, f14⟩
    | false =>
      rw [if_neg (by simp)] at hs
      subst hs
      exact ⟨by rw [g4RC, g3RC, g2RC, r1RC, hRC], rfl, rfl, rfl, rfl, rfl, rfl, rfl, rfl,
        rfl, rfl⟩
  obtain ⟨g5RC, g5FF, g5FA, g5OC, g5DC, g5AC, g5MC, g5PC, g5L, g5AX, g5SS⟩ :=
    g5 _ rfl
  set s5 := if isRefl then monitor_reflection_setChecked true s4 else s4 with hs5
  have g6 : ∀ s : St, s = (if isAMF then auto_mode_finder_setChecked true s5 else s5) →
      s.autoModeCheck = isAMF ∧ s.fgFrequency = s5.fgFrequency ∧
      s.fgAmplitude = s5.fgAmplitude ∧ s.outputCheck = s5.outputCheck ∧
      s.ditherCheck = s5.ditherCheck ∧ s.autoOffsetCheck = s5.autoOffsetCheck ∧
      s.reflCheck = s5.reflCheck ∧ s.pidCheck = s5.pidCheck ∧
      s.lockHeld = s5.lockHeld ∧ s.auxOffset = s5.auxOffset ∧
      s.slowSpin = s5.slowSpin := by
    intro s hs
    obtain ⟨f1, f2, f3, f4, f5, f6, f7, f8, f9, f10, f11, f12, f13, f14, f15⟩ :=
      auto_mode_finder_setChecked_fields true s5
    cases isAMF with
    | true =>
      rw [if_pos rfl] at hs
      subst hs
      exact ⟨f1, f4, f3, f11, f8, f9, f10, f12, f2, f13, f14⟩
    | false =>
      rw [if_neg (by simp)] at hs
      subst hs
      exact ⟨by rw [g5MC, g4MC, g3MC, g2MC, r1MC, hMC], rfl, rfl, rfl, rfl, rfl, rfl, rfl,
        rfl, rfl, rfl⟩
  obtain ⟨g6MC, g6FF, g6FA, g6OC, g6DC, g6AC, g6RC, g6PC, g6L, g6AX, g6SS⟩ :=
    g6 _ rfl
  set s6 := if isAMF then auto_mode_finder_setChecked true s5 else s5 with hs6
  have g7 : ∀ s : St, s = (if isPid then start_offset_monitoring (enable_pid s6) else s6) →
      s.pidCheck = isPid ∧ s.fgFrequency = s6.fgFrequency ∧
      s.fgAmplitude = s6.fgAmplitude ∧ s.outputCheck = s6.outputCheck ∧
      s.ditherCheck = s6.ditherCheck ∧ s.autoOffsetCheck = s6.autoOffsetCheck ∧
      s.reflCheck = s6.reflCheck ∧ s.autoModeCheck = s6.autoModeCheck ∧
      s.lockHeld = s6.lockHeld ∧ s.auxOffset = s6.auxOffset ∧
      s.slowSpin = s6.slowSpin := by
    intro s hs
    obtain ⟨f1, f2, f3, f4, f5, f6, f7, f8, f9, f10, f11, f12, f13, f14⟩ :=
      enable_pid_fields s6
    obtain ⟨k1, k2, k3, k4, k5, k6, k7, k8, k9, k10, k11, k12, k13, k14, _⟩ :=
      start_offset_monitoring_fields (enable_pid s6)
    cases isPid with
    | true =>
      rw [if_pos rfl] at hs
      subst hs
      exact ⟨by rw [k1, f1], by rw [k4, f4], by rw [k3, f3], by rw [k12, f12],
        by rw [k8, f8], by rw [k9, f9], by rw [k10, f10], by rw [k11, f11],
        by rw [k2, f2], by rw [k13, f13], by rw [k14, f14]⟩
    | false =>
      rw [if_neg (by simp)] at hs
      subst hs
      exact ⟨by rw [g6PC, g5PC, g4PC, g3PC, g2PC, r1PC, hPC], rfl, rfl, rfl, rfl, rfl, rfl,
        rfl, rfl, rfl, rfl⟩
  obtain ⟨g7PC, g7FF, g7FA, g7OC, g7DC, g7AC, g7RC, g7MC, g7L, g7AX, g7SS⟩ :=
    g7 _ rfl
  refine ⟨?_, ?_, ?_, ?_, ?_, ?_, ?_, ?_, ?_, ?_, ?_⟩
  · rw [g7FF, g6FF, g5FF, g4FF, g3FF, g2FF, r1FF]
  · rw [g7FA, g6FA, g5FA, g4FA, g3FA, g2FA, r1FA]
  · rw [g7DC, g6DC, g5DC, g4DC, g3DC]
  · rw [g7AC, g6AC, g5AC, g4AC]
  · rw [g7RC, g6RC, g5RC]
  · rw [g7MC, g6MC]
  · rw [g7OC, g6OC, g5OC, g4OC, g3OC, g2OC]
  · exact g7PC
  · rw [g7L, g6L, g5L, g4L, g3L, g2L, r1L]
  · rw [g7AX, g6AX, g5AX, g4AX, g3AX, g2AX, r1AX]
  · rw [g7SS, g6SS, g5SS, g4SS, g3SS, g2SS, r1SS]

/-- The refusal equation for the routine: a held lock means immediate
return with the state untouched. -/
theorem mode_finding_routine_refused (D : Detector) (bThr : ℚ)
    (MFS : ModeFindingSettings) (P : MFParams) (env : MFEnv) (st : St)
    (h : st.lockHeld) :
    mode_finding_routine D bThr MFS P env st = some (.refused, false, st) := by
  unfold mode_finding_routine routine_lock_tryAcquire
  rw [if_pos h]

/-- The acquisition equation for the routine on a free lock. -/
theorem mode_finding_routine_acquired (D : Detector) (bThr : ℚ)
    (MFS : ModeFindingSettings) (P : MFParams) (env : MFEnv) (st : St)
    (h : ¬ st.lockHeld) :
    mode_finding_routine D bThr MFS P env st
      = match mfBody D bThr MFS P env {st with lockHeld := true} with
        | none => none
        | some (.error st1) => some (.raised, false, routine_lock_release st1)
        | some (.ok (found, st1)) =>
          some (.finished, found, routine_lock_release st1) := by
  unfold mode_finding_routine routine_lock_tryAcquire
  rw [if_neg h]

/-- Restoration through the post-coarse stage: the amplitude restore puts
the device amplitude back to the snapshot, the fine scan leaves the
function generator and the toggles alone, and the epilogue restores the
rest. -/
theorem mfAfterCoarse_restores (D : Detector) (bThr : ℚ) (P : MFParams)
    (prevA prevF : ℚ) (isPid isDither isAO isRefl isFgOut isAMF : Bool)
    (found : Bool) (env : MFEnv) (st : St) (found2 : Bool) (stB : St)
    (h : mfAfterCoarse D bThr P prevA prevF isPid isDither isAO isRefl isFgOut
      isAMF found env st = some (.ok (found2, stB)))
    (hDC : st.ditherCheck = false) (hAC : st.autoOffsetCheck = false)
    (hRC : st.reflCheck = false) (hMC : st.autoModeCheck = false)
    (hOC : st.outputCheck = true) (hPC : st.pidCheck = false)
    (hAF : st.ampFine = 0)
    (hsyncA : st.fgAmplitude = prevA ∨ st.fgAmplitude = st.ampSpin / 1000)
    (hsyncF : st.fgFrequency = prevF ∨ st.fgFrequency = st.freqSpin) :
    stB.fgAmplitude = prevA ∧ stB.fgFrequency = prevF ∧
    stB.ditherCheck = isDither ∧ stB.autoOffsetCheck = isAO ∧
    stB.reflCheck = isRefl ∧ stB.autoModeCheck = isAMF ∧
    stB.outputCheck = isFgOut ∧ stB.pidCheck = isPid ∧
    stB.lockHeld = st.lockHeld := by
  unfold mfAfterCoarse at h
  obtain ⟨aAS, aL, aFF, aAF, aFS, aDC, aAC, aRC, aMC, aOC, aPC, aAX, aSS, aOS⟩ :=
    amplitude_setValue_fields (prevA * 1000) st
  have hFA4 : (amplitude_setValue (prevA * 1000) st).fgAmplitude = prevA :=
    amplitude_setValue_restores st prevA hAF hsyncA
  set st4 := amplitude_setValue (prevA * 1000) st with hst4
  have hmain : ∀ st5 : St, Frame12 st5 st4 →
      stB = mfRestore prevF isPid isDither isAO isRefl isFgOut isAMF st5 →
      stB.fgAmplitude = prevA ∧ stB.fgFrequency = prevF ∧
      stB.ditherCheck = isDither ∧ stB.autoOffsetCheck = isAO ∧
      stB.reflCheck = isRefl ∧ stB.autoModeCheck = isAMF ∧
      stB.outputCheck = isFgOut ∧ stB.pidCheck = isPid ∧
      stB.lockHeld = st.lockHeld := by
    intro st5 hfr hB
    obtain ⟨fL, fFA, fFF, fAS, fAF, fFS, fDC, fAC, fRC, fMC, fOC, fPC⟩ := hfr
    obtain ⟨mFF, mFA, mDC, mAC, mRC, mMC, mOC, mPC, mL, _, _⟩ :=
      mfRestore_fields prevF isPid isDither isAO isRefl isFgOut isAMF st5
        (by rw [fDC, aDC, hDC]) (by rw [fAC, aAC, hAC]) (by rw [fRC, aRC, hRC])
        (by rw [fMC, aMC, hMC]) (by rw [fOC, aOC, hOC]) (by rw [fPC, aPC, hPC])
        (by
          rcases hsyncF with hs | hs
          · exact .inl (by rw [fFF, aFF, hs])
          · exact .inr (by rw [fFF, aFF, hs, fFS, aFS]))
    subst hB
    exact ⟨by rw [mFA, fFA, hFA4], mFF, mDC, mAC, mRC, mMC, mOC, mPC,
      by rw [mL, fL, aL]⟩
  cases hfnd : found with
  | false =>
    simp only [hfnd] at h
    rw [if_neg (by simp)] at h
    simp only [Option.some_inj, Except.ok.injEq, Prod.mk.injEq] at h
    exact hmain st4 (frame12_refl st4) h.2.symm
  | true =>
    simp only [hfnd] at h
    cases hf : mfFineLoop D bThr P.fineStep P.delayS P.fineRegularityThreshold
        (min 1 (st4.offSpin + 3/20)) env.length (max 0 (st4.offSpin - 3/20)) env
        (pushEv (.sleep (1/5)) (offset_setValue (max 0 (st4.offSpin - 3/20)) st4)) with
    | none =>
      rw [hf] at h
      exact Option.noConfusion h
    | some rf =>
      rw [hf] at h
      cases rf with
      | error s =>
        have h2 : (some (Except.error s) : Option (Except St (Bool × St)))
            = some (.ok (found2, stB)) := h
        exact Except.noConfusion (Option.some.inj h2)
      | ok q =>
        obtain ⟨env2, st5⟩ := q
        have h2 : (some (Except.ok ((true : Bool),
            mfRestore prevF isPid isDither isAO isRefl isFgOut isAMF st5)) :
            Option (Except St (Bool × St))) = some (.ok (found2, stB)) := h
        have h4 := (Prod.ext_iff.mp (Except.ok.inj (Option.some.inj h2))).2
        have hfr5 : Frame12 st5 st4 := by
          have hfine := mfFineLoop_frame12 D bThr P.fineStep P.delayS
            P.fineRegularityThreshold (min 1 (st4.offSpin + 3/20)) env.length
            (max 0 (st4.offSpin - 3/20)) env
            (pushEv (.sleep (1/5)) (offset_setValue (max 0 (st4.offSpin - 3/20)) st4))
            _ hf
          exact frame12_trans hfine
            (frame12_trans (pushEv_frame12 _ _) (offset_setValue_frame12 _ _))
        exact hmain st5 hfr5 h4.symm

/-- Restoration through `mfTail`: the slow-offset reset and the scans do
not touch the function generator or toggle state; the epilogue restores
everything to the snapshots. -/
theorem mfTail_restores (D : Detector) (bThr : ℚ) (P : MFParams)
    (prevA prevF : ℚ) (isPid isDither isAO isRefl isFgOut isAMF : Bool)
    (startV stopV : ℚ) (found : Bool) (env : MFEnv) (st : St)
    (found2 : Bool) (stB : St)
    (h : mfTail D bThr P prevA prevF isPid isDither isAO isRefl isFgOut isAMF
      startV stopV found env st = some (.ok (found2, stB)))
    (hDC : st.ditherCheck = false) (hAC : st.autoOffsetCheck = false)
    (hRC : st.reflCheck = false) (hMC : st.autoModeCheck = false)
    (hOC : st.outputCheck = true) (hPC : st.pidCheck = false)
    (hAF : st.ampFine = 0)
    (hsyncA : st.fgAmplitude = prevA ∨ st.fgAmplitude = st.ampSpin / 1000)
    (hsyncF : st.fgFrequency = prevF ∨ st.fgFrequency = st.freqSpin) :
    stB.fgAmplitude = prevA ∧ stB.fgFrequency = prevF ∧
    stB.ditherCheck = isDither ∧ stB.autoOffsetCheck = isAO ∧
    stB.reflCheck = isRefl ∧ stB.autoModeCheck = isAMF ∧
    stB.outputCheck = isFgOut ∧ stB.pidCheck = isPid ∧
    stB.lockHeld = st.lockHeld := by
  unfold mfTail at h
  have hfr2 : Frame12 (pushEv (.sleep 1) (slow_offset_setValue startV st)) st :=
    frame12_trans (pushEv_frame12 _ _) (slow_offset_setValue_frame12 _ _)
  set st2 := pushEv (.sleep 1) (slow_offset_setValue startV st) with hst2
  obtain ⟨fL, fFA, fFF, fAS, fAF, fFS, fDC, fAC, fRC, fMC, fOC, fPC⟩ := hfr2
  have happly : ∀ (f1 : Bool) (env1 : MFEnv) (st3 : St), Frame12 st3 st2 →
      mfAfterCoarse D bThr P prevA prevF isPid isDither isAO isRefl isFgOut isAMF
        f1 env1 st3 = some (.ok (found2, stB)) →
      stB.fgAmplitude = prevA ∧ stB.fgFrequency = prevF ∧
      stB.ditherCheck = isDither ∧ stB.autoOffsetCheck = isAO ∧
      stB.reflCheck = isRefl ∧ stB.autoModeCheck = isAMF ∧
      stB.outputCheck = isFgOut ∧ stB.pidCheck = isPid ∧
      stB.lockHeld = st.lockHeld := by
    intro f1 env1 st3 hfr3 hac
    obtain ⟨gL, gFA, gFF, gAS, gAF, gFS, gDC, gAC, gRC, gMC, gOC, gPC⟩ := hfr3
    have hres := mfAfterCoarse_restores D bThr P prevA prevF isPid isDither isAO
      isRefl isFgOut isAMF f1 env1 st3 found2 stB hac
      (by rw [gDC, fDC, hDC]) (by rw [gAC, fAC, hAC]) (by rw [gRC, fRC, hRC])
      (by rw [gMC, fMC, hMC]) (by rw [gOC, fOC, hOC]) (by rw [gPC, fPC, hPC])
      (by rw [gAF, fAF, hAF])
      (by
        rcases hsyncA with hs | hs
        · exact .inl (by rw [gFA, fFA, hs])
        · exact .inr (by rw [gFA, fFA, hs, gAS, fAS]))
      (by
        rcases hsyncF with hs | hs
        · exact .inl (by rw [gFF, fFF, hs])
        · exact .inr (by rw [gFF, fFF, hs, gFS, fFS]))
    obtain ⟨m1, m2, m3, m4, m5, m6, m7, m8, m9⟩ := hres
    exact ⟨m1, m2, m3, m4, m5, m6, m7, m8, by rw [m9, gL, fL]⟩
  cases hfnd : found with
  | true =>
    simp only [hfnd] at h
    exact happly true env st2 (frame12_refl st2) h
  | false =>
    simp only [hfnd] at h
    rw [← hst2] at h
    cases hc : mfCoarseLoop D bThr P.stepV P.delayS P.regularityThreshold stopV
        env.length startV env st2 with
    | none =>
      rw [hc] at h
      exact Option.noConfusion h
    | some rc =>
      rw [hc] at h
      cases rc with
      | error s =>
        have h2 : (some (Except.error s) : Option (Except St (Bool × St)))
            = some (.ok (found2, stB)) := h
        exact Except.noConfusion (Option.some.inj h2)
      | ok q =>
        obtain ⟨f1, env1, st3⟩ := q
        have hfr3 : Frame12 st3 st2 :=
          mfCoarseLoop_frame12 D bThr P.stepV P.delayS P.regularityThreshold stopV
            env.length startV env st2 _ hc
        have h2 : mfAfterCoarse D bThr P prevA prevF isPid isDither isAO isRefl
            isFgOut isAMF f1 env1 st3 = some (.ok (found2, stB)) := h
        exact happly f1 env1 st3 hfr3 h2

/-- C2 (amended): after any invocation of `mode_finding_routine` that
acquires the guard and completes WITHOUT an exception — mode found or range
exhausted — the function-generator amplitude and frequency and every
suppressed toggle (dither, auto-offset, reflection monitor,
auto-mode-finder, FG output) equal their pre-invocation values; the PID
checkbox is in fact also restored, and the guard is released.  (The
exception path does not restore: see the counterexample.) -/
theorem C2_mode_finding_restores_on_normal_completion (D : Detector) (bThr : ℚ)
    (MFS : ModeFindingSettings) (P : MFParams) (env : MFEnv) (st : St)
    (hfree : ¬ st.lockHeld) (found : Bool) (stf : St)
    (hrun : mode_finding_routine D bThr MFS P env st = some (.finished, found, stf)) :
    stf.fgAmplitude = st.fgAmplitude ∧ stf.fgFrequency = st.fgFrequency ∧
    stf.ditherCheck = st.ditherCheck ∧ stf.autoOffsetCheck = st.autoOffsetCheck ∧
    stf.reflCheck = st.reflCheck ∧ stf.autoModeCheck = st.autoModeCheck ∧
    stf.outputCheck = st.outputCheck ∧ stf.pidCheck = st.pidCheck ∧
    stf.lockHeld = false := by
  rw [mode_finding_routine_acquired D bThr MFS P env st hfree] at hrun
  cases hbody : mfBody D bThr MFS P env {st with lockHeld := true} with
  | none =>
    rw [hbody] at hrun
    exact Option.noConfusion hrun
  | some r =>
    rw [hbody] at hrun
    cases r with
    | error s =>
      have h2 : ((RoutineOutcome.raised, false, routine_lock_release s) :
          RoutineOutcome × Bool × St) = (.finished, found, stf) :=
        Option.some.inj hrun
      exact absurd (Prod.ext_iff.mp h2).1 (by simp)
    | ok p =>
      obtain ⟨found2, stB⟩ := p
      have h2 : ((RoutineOutcome.finished, found2, routine_lock_release stB) :
          RoutineOutcome × Bool × St) = (.finished, found, stf) :=
        Option.some.inj hrun
      have hstf : routine_lock_release stB = stf :=
        (Prod.ext_iff.mp (Prod.ext_iff.mp h2).2).2
      simp only [mfBody] at hbody
      cases hinit : mfInitialCheck D bThr P st.stopVSpin env
          (mfPrefix MFS {st with lockHeld := true}) with
      | none =>
        rw [hinit] at hbody
        exact Option.noConfusion hbody
      | some ri =>
        rw [hinit] at hbody
        cases ri with
        | error s2 =>
          have hb2 : (some (Except.error s2) : Option (Except St (Bool × St)))
              = some (.ok (found2, stB)) := hbody
          exact Except.noConfusion (Option.some.inj hb2)
        | ok q =>
          obtain ⟨f0, env0, stI⟩ := q
          have htail : mfTail D bThr P st.fgAmplitude st.fgFrequency st.pidCheck
              st.ditherCheck st.autoOffsetCheck st.reflCheck st.outputCheck
              st.autoModeCheck st.startVSpin st.stopVSpin f0 env0 stI
              = some (.ok (found2, stB)) := hbody
          have hfrI : Frame12 stI (mfPrefix MFS {st with lockHeld := true}) :=
            mfInitialCheck_frame12 D bThr P st.stopVSpin env
              (mfPrefix MFS {st with lockHeld := true}) _ hinit
          obtain ⟨iL, iFA, iFF, iAS, iAF, iFS, iDC, iAC, iRC, iMC, iOC, iPC⟩ := hfrI
          obtain ⟨pDC, pAC, pRC, pMC, pOC, pPC, pAF, pL, pSyncA, pSyncF⟩ :=
            mfPrefix_facts MFS {st with lockHeld := true}
          obtain ⟨tFA, tFF, tDC, tAC, tRC, tMC, tOC, tPC, tL⟩ :=
            mfTail_restores D bThr P st.fgAmplitude st.fgFrequency st.pidCheck
              st.ditherCheck st.autoOffsetCheck st.reflCheck st.outputCheck
              st.autoModeCheck st.startVSpin st.stopVSpin f0 env0 stI found2 stB
              htail
              (by rw [iDC, pDC]) (by rw [iAC, pAC]) (by rw [iRC, pRC])
              (by rw [iMC, pMC]) (by rw [iOC, pOC]) (by rw [iPC, pPC])
              (by rw [iAF, pAF])
              (by
                rcases pSyncA with hs | hs
                · exact .inl (by rw [iFA, hs])
                · exact .inr (by rw [iFA, hs, iAS]))
              (by
                rcases pSyncF with hs | hs
                · exact .inl (by rw [iFF, hs])
                · exact .inr (by rw [iFF, hs, iFS]))
          obtain ⟨rL, rFA, rFF, rDC, rAC, rRC, rMC, rOC, rPC, _, _⟩ :=
            routine_lock_release_fields stB
          subst hstf
          exact ⟨by rw [rFA, tFA], by rw [rFF, tFF], by rw [rDC, tDC],
            by rw [rAC, tAC], by rw [rRC, tRC], by rw [rMC, tMC],
            by rw [rOC, tOC], by rw [rPC, tPC], rL⟩

/-- A raising first scope acquisition: the routine releases the lock and
propagates, with the state as the prefix left it (no restores run — the
`finally` block contains only the lock release). -/
theorem mode_finding_raised_on_first_read (D : Detector) (bThr : ℚ)
    (MFS : ModeFindingSettings) (P : MFParams) (rest : MFEnv) (st : St)
    (hfree : ¬ st.lockHeld) :
    mode_finding_routine D bThr MFS P (.error () :: rest) st
      = some (.raised, false,
          routine_lock_release
            (pushEv .readScope (mfPrefix MFS {st with lockHeld := true}))) := by
  rw [mode_finding_routine_acquired D bThr MFS P _ st hfree]
  have hbody : mfBody D bThr MFS P (.error () :: rest) {st with lockHeld := true}
      = some (.error (pushEv .readScope (mfPrefix MFS {st with lockHeld := true}))) := by
    simp only [mfBody, mfInitialCheck, readScope1]
  rw [hbody]

/-- Counterexample to C2 as stated: an invocation that acquires the guard
and raises at the first scope acquisition exits with the dither toggle
still suppressed (`false`), not equal to its pre-invocation value
(`true`) — the restores sit in the `try` body, not in the `finally`. -/
theorem C2_restoration_counterexample :
    cexSt.ditherCheck = true ∧
    mode_finding_routine cexD 2 cexMFS mfDefaults [.error ()] cexSt
      = some (.raised, false,
          routine_lock_release
            (pushEv .readScope (mfPrefix cexMFS {cexSt with lockHeld := true}))) ∧
    (routine_lock_release
        (pushEv .readScope (mfPrefix cexMFS {cexSt with lockHeld := true}))).ditherCheck
      = false := by
  refine ⟨rfl, mode_finding_raised_on_first_read cexD 2 cexMFS mfDefaults [] cexSt
    (by simp [cexSt, rampWitnessSt]), ?_⟩
  obtain ⟨_, _, _, rDC, _, _, _, _, _, _, _⟩ :=
    routine_lock_release_fields (pushEv .readScope (mfPrefix cexMFS {cexSt with lockHeld := true}))
  obtain ⟨pDC, _, _, _, _, _, _, _, _, _⟩ := mfPrefix_facts cexMFS {cexSt with lockHeld := true}
  rw [rDC]
  exact pDC

/-- C1: the routine guard is non-blocking and mutually exclusive — of two
successive acquisition attempts without an intervening release at most one
succeeds, and a routine that finds the guard held returns immediately with
the state (and trace) completely untouched, performing no hardware-driving
step. -/
theorem C1_routine_guard_mutual_exclusion (st : St) (D : Detector) (bThr : ℚ)
    (MFS : ModeFindingSettings) (P : MFParams) (env : MFEnv)
    (direction : RampDir) (running faults : ℕ → Bool) :
    (¬ ((routine_lock_tryAcquire st).1 = true ∧
        (routine_lock_tryAcquire (routine_lock_tryAcquire st).2).1 = true)) ∧
    (st.lockHeld →
      mode_finding_routine D bThr MFS P env st = some (.refused, false, st) ∧
      ramp_slow_offset direction running faults st = (.refused, st)) := by
  constructor
  · unfold routine_lock_tryAcquire
    by_cases h : st.lockHeld
    · rw [if_pos h]
      simp
    · rw [if_neg h]
      simp
  · intro h
    exact ⟨mode_finding_routine_refused D bThr MFS P env st h,
      ramp_slow_offset_refused direction running faults st h⟩

/-- Witness for C1 at a concrete held-lock state: both routines are
refused with the state untouched. -/
theorem C1_routine_guard_mutual_exclusion_witness :
    mode_finding_routine cexD 2 cexMFS mfDefaults [] lockedSt
      = some (.refused, false, lockedSt) ∧
    ramp_slow_offset .up (fun _ => true) (fun _ => false) lockedSt
      = (.refused, lockedSt) := by
  exact (C1_routine_guard_mutual_exclusion lockedSt cexD 2 cexMFS mfDefaults []
    .up (fun _ => true) (fun _ => false)).2 rfl

/-- C6: every execution of a protected routine that acquired the guard
releases it by the time it exits, on every exit path — normal completion,
early stop, or a propagating exception. -/
theorem C6_guard_released_on_every_exit (D : Detector) (bThr : ℚ)
    (MFS : ModeFindingSettings) (P : MFParams) (env : MFEnv) (st : St)
    (direction : RampDir) (running faults : ℕ → Bool)
    (hfree : ¬ st.lockHeld) :
    (ramp_slow_offset direction running faults st).2.lockHeld = false ∧
    (∀ (o : RoutineOutcome) (found : Bool) (st1 : St),
      mode_finding_routine D bThr MFS P env st = some (o, found, st1) →
      st1.lockHeld = false) := by
  constructor
  · rw [ramp_slow_offset_acquired direction running faults st hfree]
    cases rampLoop (rampStepSize direction) running faults 15 0
        {st with lockHeld := true} with
    | error s => rfl
    | ok s => rfl
  · intro o found st1 h
    rw [mode_finding_routine_acquired D bThr MFS P env st hfree] at h
    cases hbody : mfBody D bThr MFS P env {st with lockHeld := true} with
    | none =>
      rw [hbody] at h
      exact Option.noConfusion h
    | some r =>
      rw [hbody] at h
      cases r with
      | error s =>
        have h2 : ((RoutineOutcome.raised, false, routine_lock_release s) :
            RoutineOutcome × Bool × St) = (o, found, st1) := Option.some.inj h
        have h3 : routine_lock_release s = st1 :=
          (Prod.ext_iff.mp (Prod.ext_iff.mp h2).2).2
        rw [← h3]
        rfl
      | ok p =>
        obtain ⟨found2, stB⟩ := p
        have h2 : ((RoutineOutcome.finished, found2, routine_lock_release stB) :
            RoutineOutcome × Bool × St) = (o, found, st1) := Option.some.inj h
        have h3 : routine_lock_release stB = st1 :=
          (Prod.ext_iff.mp (Prod.ext_iff.mp h2).2).2
        rw [← h3]
        rfl

/-- Witness for C6 at a concrete free-lock state: the ramp (raising at
step 0 via an injected device fault) still ends with the lock free, and so
does a run of the mode-finding routine that raises at its first scope
acquisition. -/
theorem C6_guard_released_on_every_exit_witness :
    (ramp_slow_offset .up (fun _ => true) (fun _ => true) rampWitnessSt).2.lockHeld
      = false ∧
    (∀ (o : RoutineOutcome) (found : Bool) (st1 : St),
      mode_finding_routine cexD 2 cexMFS mfDefaults [.error ()] rampWitnessSt
        = some (o, found, st1) →
      st1.lockHeld = false) :=
  C6_guard_released_on_every_exit cexD 2 cexMFS mfDefaults [.error ()] rampWitnessSt
    .up (fun _ => true) (fun _ => true) (by simp [rampWitnessSt])

/-- A concrete completed (range-exhausted) run of the routine: one flat
acquisition, no peaks, the coarse scan window is empty, every restore
guard fires as a no-op. -/
theorem cexRun_finished :
    mode_finding_routine cexD 2 cexMFS5 mfDefaults [.ok wflat] cexSt6
      = some (.finished, false,
          routine_lock_release (pushEv (.sleep 1)
            (slow_offset_setValue 2 (pushEv .readScope
              {cexSt6 with lockHeld := true})))) := by
  have hpk : number_of_peaks cexD 2 wflat = 0 := by
    norm_num [number_of_peaks, npMax, npMin, wflat]
  rw [mode_finding_routine_acquired cexD 2 cexMFS5 mfDefaults [.ok wflat] cexSt6
    (by simp [cexSt6])]
  norm_num [mfBody, mfInitialCheck, readScope1, hpk, mfTail, mfCoarseLoop,
    mfAfterCoarse, mfRestore, mfPrefix, disable_pid, pid_enable_setChecked,
    dither_enable_setChecked, auto_offset_setChecked, monitor_reflection_setChecked,
    auto_mode_finder_setChecked, amplitude_fine_setValue, amplitude_setValue,
    freq_setValue, output_setChecked, slow_offset_fine_setValue,
    slow_offset_setValue, on_slow_offset_changed, pushEv, routine_lock_release,
    cexSt6, cexMFS5, mfDefaults]

/-- Witness for C2 (amended) at the concrete completed run: every restored
quantity equals its pre-invocation value and the guard is free. -/
theorem C2_mode_finding_restores_witness :
    (routine_lock_release (pushEv (.sleep 1)
        (slow_offset_setValue 2 (pushEv .readScope
          {cexSt6 with lockHeld := true})))).fgAmplitude = cexSt6.fgAmplitude ∧
    (routine_lock_release (pushEv (.sleep 1)
        (slow_offset_setValue 2 (pushEv .readScope
          {cexSt6 with lockHeld := true})))).fgFrequency = cexSt6.fgFrequency ∧
    (routine_lock_release (pushEv (.sleep 1)
        (slow_offset_setValue 2 (pushEv .readScope
          {cexSt6 with lockHeld := true})))).ditherCheck = cexSt6.ditherCheck ∧
    (routine_lock_release (pushEv (.sleep 1)
        (slow_offset_setValue 2 (pushEv .readScope
          {cexSt6 with lockHeld := true})))).autoOffsetCheck = cexSt6.autoOffsetCheck ∧
    (routine_lock_release (pushEv (.sleep 1)
        (slow_offset_setValue 2 (pushEv .readScope
          {cexSt6 with lockHeld := true})))).reflCheck = cexSt6.reflCheck ∧
    (routine_lock_release (pushEv (.sleep 1)
        (slow_offset_setValue 2 (pushEv .readScope
          {cexSt6 with lockHeld := true})))).autoModeCheck = cexSt6.autoModeCheck ∧
    (routine_lock_release (pushEv (.sleep 1)
        (slow_offset_setValue 2 (pushEv .readScope
          {cexSt6 with lockHeld := true})))).outputCheck = cexSt6.outputCheck ∧
    (routine_lock_release (pushEv (.sleep 1)
        (slow_offset_setValue 2 (pushEv .readScope
          {cexSt6 with lockHeld := true})))).pidCheck = cexSt6.pidCheck ∧
    (routine_lock_release (pushEv (.sleep 1)
        (slow_offset_setValue 2 (pushEv .readScope
          {cexSt6 with lockHeld := true})))).lockHeld = false :=
  C2_mode_finding_restores_on_normal_completion cexD 2 cexMFS5 mfDefaults
    [.ok wflat] cexSt6 (by simp [cexSt6]) false _ cexRun_finished

/-!
## Slow-offset tracking for the immediate-found path (C5)

The fine scan drives only the fast offset, and the restoration epilogue
drives neither offset, so after the unconditional `start_v` reset the slow
offset stays at `start_v` for the rest of a found run. -/

theorem freq_setValue_aux_slow (v : ℚ) (st : St) :
    (freq_setValue v st).auxOffset = st.auxOffset ∧
    (freq_setValue v st).slowSpin = st.slowSpin := by
  unfold freq_setValue on_freq_changed pushEv
  split_ifs <;> exact ⟨rfl, rfl⟩

theorem output_setChecked_aux_slow (b : Bool) (st : St) :
    (output_setChecked b st).auxOffset = st.auxOffset ∧
    (output_setChecked b st).slowSpin = st.slowSpin := by
  unfold output_setChecked on_output_toggled pushEv
  split_ifs <;> exact ⟨rfl, rfl⟩

theorem dither_enable_setChecked_aux_slow (b : Bool) (st : St) :
    (dither_enable_setChecked b st).auxOffset = st.auxOffset ∧
    (dither_enable_setChecked b st).slowSpin = st.slowSpin := by
  unfold dither_enable_setChecked on_dither_enable_changed pushEv
  split_ifs <;> exact ⟨rfl, rfl⟩

theorem auto_offset_setChecked_aux_slow (b : Bool) (st : St) :
    (auto_offset_setChecked b st).auxOffset = st.auxOffset ∧
    (auto_offset_setChecked b st).slowSpin = st.slowSpin := by
  unfold auto_offset_setChecked on_auto_offset_changed
    start_auto_offset_management stop_auto_offset_management pushEv
  split_ifs <;> exact ⟨rfl, rfl⟩

theorem monitor_reflection_setChecked_aux_slow (b : Bool) (st : St) :
    (monitor_reflection_setChecked b st).auxOffset = st.auxOffset ∧
    (monitor_reflection_setChecked b st).slowSpin = st.slowSpin := by
  unfold monitor_reflection_setChecked on_monitor_reflection_changed
    start_reflection_monitoring stop_reflection_monitoring pushEv
  split_ifs <;> exact ⟨rfl, rfl⟩

theorem auto_mode_finder_setChecked_aux_slow (b : Bool) (st : St) :
    (auto_mode_finder_setChecked b st).auxOffset = st.auxOffset ∧
    (auto_mode_finder_setChecked b st).slowSpin = st.slowSpin := by
  unfold auto_mode_finder_setChecked on_auto_mode_finder_changed
    start_auto_mode_finder stop_auto_mode_finder pushEv
  split_ifs <;> exact ⟨rfl, rfl⟩

theorem enable_pid_aux_slow (st : St) :
    (enable_pid st).auxOffset = st.auxOffset ∧
    (enable_pid st).slowSpin = st.slowSpin := by
  obtain ⟨_, _, _, _, _, _, _, _, _, _, _, _, hAX, hSS⟩ := enable_pid_fields st
  exact ⟨hAX, hSS⟩

theorem start_offset_monitoring_aux_slow (st : St) :
    (start_offset_monitoring st).auxOffset = st.auxOffset ∧
    (start_offset_monitoring st).slowSpin = st.slowSpin := by
  unfold start_offset_monitoring pushEv
  split_ifs <;> exact ⟨rfl, rfl⟩

/-- The restoration epilogue drives neither the slow offset device node
nor its spinbox. -/
theorem mfRestore_aux_slow (prevF : ℚ)
    (isPid isDither isAO isRefl isFgOut isAMF : Bool) (st : St) :
    (mfRestore prevF isPid isDither isAO isRefl isFgOut isAMF st).auxOffset
      = st.auxOffset ∧
    (mfRestore prevF isPid isDither isAO isRefl isFgOut isAMF st).slowSpin
      = st.slowSpin := by
  unfold mfRestore
  split_ifs <;>
    simp only [freq_setValue_aux_slow, output_setChecked_aux_slow,
      dither_enable_setChecked_aux_slow, auto_offset_setChecked_aux_slow,
      monitor_reflection_setChecked_aux_slow, auto_mode_finder_setChecked_aux_slow,
      enable_pid_aux_slow, start_offset_monitoring_aux_slow] <;>
    trivial

/-- The fine scan preserves the slow offset and its spinbox. -/
theorem mfFineLoop_aux_slow (D : Detector) (bThr fineStep delayS fthr bound : ℚ) :
    ∀ (fuel : ℕ) (c : ℚ) (env : MFEnv) (st : St) (res : Except St (MFEnv × St)),
      mfFineLoop D bThr fineStep delayS fthr bound fuel c env st = some res →
      (exceptSt2 res).auxOffset = st.auxOffset ∧
      (exceptSt2 res).slowSpin = st.slowSpin := by
  intro fuel
  induction fuel with
  | zero =>
    intro c env st res h
    rw [mfFineLoop] at h
    split at h
    · exact absurd h (by simp)
    · rw [Option.some_inj] at h
      subst h
      exact ⟨rfl, rfl⟩
  | succ fuel ih =>
    intro c env st res h
    rw [mfFineLoop] at h
    split at h
    · rcases env with _ | ⟨r, rest⟩
      · exact absurd h (by simp [readScope1])
      · rcases r with e | w
        · simp only [readScope1, Option.some_inj] at h
          subst h
          exact ⟨rfl, rfl⟩
        · simp only [readScope1] at h
          split at h
          · rw [Option.some_inj] at h
            subst h
            exact ⟨rfl, rfl⟩
          · obtain ⟨hA, hS⟩ := ih _ _ _ _ h
            refine ⟨?_, ?_⟩
            · rw [hA]
              exact (offset_setValue_other_fields _ _).1
            · rw [hS]
              exact (offset_setValue_other_fields _ _).2
    · rw [Option.some_inj] at h
      subst h
      exact ⟨rfl, rfl⟩

/-- The device write of the slow-offset spinbox setter: the aux output
receives the value unless the change-guard suppresses the signal. -/
theorem slow_offset_setValue_aux (v : ℚ) (st : St) :
    (slow_offset_setValue v st).auxOffset
      = if st.slowSpin = v then st.auxOffset else v := by
  unfold slow_offset_setValue on_slow_offset_changed pushEv
  split_ifs <;> rfl

/-- Through a found tail (`found = true` on entry): the coarse scan is
skipped, the run's `found_mode` stays `true`, the slow-offset spinbox ends
at `start_v`, and (when the reset actually fires a device write) so does
the slow-offset device node. -/
theorem mfTail_true_resets_slow (D : Detector) (bThr : ℚ) (P : MFParams)
    (prevA prevF : ℚ) (isPid isDither isAO isRefl isFgOut isAMF : Bool)
    (startV stopV : ℚ) (env : MFEnv) (st : St) (found2 : Bool) (stB : St)
    (h : mfTail D bThr P prevA prevF isPid isDither isAO isRefl isFgOut isAMF
      startV stopV true env st = some (.ok (found2, stB))) :
    found2 = true ∧ stB.slowSpin = startV ∧
    (st.slowSpin ≠ startV → stB.auxOffset = startV) := by
  have h2 : mfAfterCoarse D bThr P prevA prevF isPid isDither isAO isRefl isFgOut
      isAMF true env (pushEv (.sleep 1) (slow_offset_setValue startV st))
      = some (.ok (found2, stB)) := h
  set st2 := pushEv (.sleep 1) (slow_offset_setValue startV st) with hst2
  have hSS2 : st2.slowSpin = startV := (slow_offset_setValue_other_fields startV st).1
  have hAX2 : st.slowSpin ≠ startV → st2.auxOffset = startV := by
    intro hne
    have := slow_offset_setValue_aux startV st
    rw [if_neg hne] at this
    exact this
  unfold mfAfterCoarse at h2
  obtain ⟨aAS, aL, aFF, aAF, aFS, aDC, aAC, aRC, aMC, aOC, aPC, aAX, aSS, aOS⟩ :=
    amplitude_setValue_fields (prevA * 1000) st2
  set st4 := amplitude_setValue (prevA * 1000) st2 with hst4
  dsimp only [] at h2
  cases hf : mfFineLoop D bThr P.fineStep P.delayS P.fineRegularityThreshold
      (min 1 (st4.offSpin + 3/20)) env.length (max 0 (st4.offSpin - 3/20)) env
      (pushEv (.sleep (1/5)) (offset_setValue (max 0 (st4.offSpin - 3/20)) st4)) with
  | none =>
    rw [hf] at h2
    exact Option.noConfusion h2
  | some rf =>
    rw [hf] at h2
    cases rf with
    | error s =>
      have h3 : (some (Except.error s) : Option (Except St (Bool × St)))
          = some (.ok (found2, stB)) := h2
      exact Except.noConfusion (Option.some.inj h3)
    | ok q =>
      obtain ⟨env2, st5⟩ := q
      have h3 : (some (Except.ok ((true : Bool),
          mfRestore prevF isPid isDither isAO isRefl isFgOut isAMF st5)) :
          Option (Except St (Bool × St))) = some (.ok (found2, stB)) := h2
      have h4 := Prod.ext_iff.mp (Except.ok.inj (Option.some.inj h3))
      have hfound : (true : Bool) = found2 := h4.1
      have hstB : mfRestore prevF isPid isDither isAO isRefl isFgOut isAMF st5
          = stB := h4.2
      obtain ⟨flAX0, flSS0⟩ := mfFineLoop_aux_slow D bThr P.fineStep P.delayS
        P.fineRegularityThreshold (min 1 (st4.offSpin + 3/20)) env.length
        (max 0 (st4.offSpin - 3/20)) env
        (pushEv (.sleep (1/5)) (offset_setValue (max 0 (st4.offSpin - 3/20)) st4))
        _ hf
      have flAX : st5.auxOffset = (pushEv (.sleep (1/5))
          (offset_setValue (max 0 (st4.offSpin - 3/20)) st4)).auxOffset := flAX0
      have flSS : st5.slowSpin = (pushEv (.sleep (1/5))
          (offset_setValue (max 0 (st4.offSpin - 3/20)) st4)).slowSpin := flSS0
      obtain ⟨mrAX, mrSS⟩ :=
        mfRestore_aux_slow prevF isPid isDither isAO isRefl isFgOut isAMF st5
      refine ⟨hfound.symm, ?_, ?_⟩
      · rw [← hstB, mrSS]
        have : (pushEv (.sleep (1/5))
            (offset_setValue (max 0 (st4.offSpin - 3/20)) st4)).slowSpin
            = st4.slowSpin := (offset_setValue_other_fields _ _).2
        rw [flSS, this, aSS, hSS2]
      · intro hne
        rw [← hstB, mrAX]
        have : (pushEv (.sleep (1/5))
            (offset_setValue (max 0 (st4.offSpin - 3/20)) st4)).auxOffset
            = st4.auxOffset := (offset_setValue_other_fields _ _).1
        rw [flAX, this, aAX, hAX2 hne]

/-- C5 (amended): when the first acquired waveform has at least 5 detected
peaks and its regularity beats the threshold, the routine finds the mode
immediately: the directional probe and the coarse linear scan are skipped
(the run is exactly the tail applied with `found = true` after the single
initial acquisition, and that tail is the post-coarse stage following the
slow-offset reset); but contrary to the original claim the slow offset does
NOT stay at its current value — every completed run leaves the slow-offset
spinbox at `start_v`, and the device slow offset too whenever the reset
fires a device write. -/
theorem C5_initial_found_skips_coarse_scan (D : Detector) (bThr : ℚ)
    (MFS : ModeFindingSettings) (P : MFParams) (w : Wave) (rest : MFEnv) (st : St)
    (hfree : ¬ st.lockHeld)
    (hpk : 5 ≤ number_of_peaks D bThr w)
    (hreg : find_peak_spacing_regularity D bThr w < toE P.regularityThreshold) :
    (mode_finding_routine D bThr MFS P (.ok w :: rest) st
      = match mfTail D bThr P st.fgAmplitude st.fgFrequency st.pidCheck
            st.ditherCheck st.autoOffsetCheck st.reflCheck st.outputCheck
            st.autoModeCheck st.startVSpin st.stopVSpin true rest
            (pushEv .readScope (mfPrefix MFS {st with lockHeld := true})) with
        | none => none
        | some (.error st1) => some (.raised, false, routine_lock_release st1)
        | some (.ok (found, st1)) =>
          some (.finished, found, routine_lock_release st1)) ∧
    (∀ (env2 : MFEnv) (st2 : St),
      mfTail D bThr P st.fgAmplitude st.fgFrequency st.pidCheck st.ditherCheck
          st.autoOffsetCheck st.reflCheck st.outputCheck st.autoModeCheck
          st.startVSpin st.stopVSpin true env2 st2
        = mfAfterCoarse D bThr P st.fgAmplitude st.fgFrequency st.pidCheck
            st.ditherCheck st.autoOffsetCheck st.reflCheck st.outputCheck
            st.autoModeCheck true env2
            (pushEv (.sleep 1) (slow_offset_setValue st.startVSpin st2))) ∧
    (∀ (found : Bool) (stf : St),
      mode_finding_routine D bThr MFS P (.ok w :: rest) st
        = some (.finished, found, stf) →
      found = true ∧ stf.slowSpin = st.startVSpin ∧
      ((pushEv .readScope (mfPrefix MFS {st with lockHeld := true})).slowSpin
          ≠ st.startVSpin → stf.auxOffset = st.startVSpin)) := by
  have hinit : mfInitialCheck D bThr P st.stopVSpin (.ok w :: rest)
      (mfPrefix MFS {st with lockHeld := true})
      = some (.ok (true, rest,
          pushEv .readScope (mfPrefix MFS {st with lockHeld := true}))) := by
    unfold mfInitialCheck readScope1
    dsimp only
    rw [if_pos hpk, if_pos hreg]
  have hbody : mfBody D bThr MFS P (.ok w :: rest) {st with lockHeld := true}
      = mfTail D bThr P st.fgAmplitude st.fgFrequency st.pidCheck st.ditherCheck
          st.autoOffsetCheck st.reflCheck st.outputCheck st.autoModeCheck
          st.startVSpin st.stopVSpin true rest
          (pushEv .readScope (mfPrefix MFS {st with lockHeld := true})) := by
    simp only [mfBody]
    rw [hinit]
  have h1 : mode_finding_routine D bThr MFS P (.ok w :: rest) st
      = match mfTail D bThr P st.fgAmplitude st.fgFrequency st.pidCheck
            st.ditherCheck st.autoOffsetCheck st.reflCheck st.outputCheck
            st.autoModeCheck st.startVSpin st.stopVSpin true rest
            (pushEv .readScope (mfPrefix MFS {st with lockHeld := true})) with
        | none => none
        | some (.error st1) => some (.raised, false, routine_lock_release st1)
        | some (.ok (found, st1)) =>
          some (.finished, found, routine_lock_release st1) := by
    rw [mode_finding_routine_acquired D bThr MFS P _ st hfree, hbody]
  refine ⟨h1, fun env2 st2 => rfl, ?_⟩
  intro found stf hrunf
  rw [h1] at hrunf
  cases ht : mfTail D bThr P st.fgAmplitude st.fgFrequency st.pidCheck
      st.ditherCheck st.autoOffsetCheck st.reflCheck st.outputCheck
      st.autoModeCheck st.startVSpin st.stopVSpin true rest
      (pushEv .readScope (mfPrefix MFS {st with lockHeld := true})) with
  | none =>
    rw [ht] at hrunf
    exact Option.noConfusion hrunf
  | some rt =>
    rw [ht] at hrunf
    cases rt with
    | error s =>
      have h2 : ((RoutineOutcome.raised, false, routine_lock_release s) :
          RoutineOutcome × Bool × St) = (.finished, found, stf) :=
        Option.some.inj hrunf
      exact absurd (Prod.ext_iff.mp h2).1 (by simp)
    | ok q =>
      obtain ⟨f2, stB⟩ := q
      have h2 : ((RoutineOutcome.finished, f2, routine_lock_release stB) :
          RoutineOutcome × Bool × St) = (.finished, found, stf) :=
        Option.some.inj hrunf
      have hfeq : f2 = found := (Prod.ext_iff.mp (Prod.ext_iff.mp h2).2).1
      have hstf : routine_lock_release stB = stf :=
        (Prod.ext_iff.mp (Prod.ext_iff.mp h2).2).2
      obtain ⟨hf2, hSS, hAX⟩ := mfTail_true_resets_slow D bThr P st.fgAmplitude
        st.fgFrequency st.pidCheck st.ditherCheck st.autoOffsetCheck st.reflCheck
        st.outputCheck st.autoModeCheck st.startVSpin st.stopVSpin rest
        (pushEv .readScope (mfPrefix MFS {st with lockHeld := true})) f2 stB ht
      obtain ⟨_, _, _, _, _, _, _, _, _, rAX, rSS⟩ :=
        routine_lock_release_fields stB
      refine ⟨by rw [← hfeq, hf2], ?_, ?_⟩
      · rw [← hstf, rSS, hSS]
      · intro hne
        rw [← hstf, rAX, hAX hne]

theorem cexD5_peaks : number_of_peaks cexD5 2 w5 = 5 := by
  norm_num [number_of_peaks, npMax, npMin, cexD5, w5]

theorem cexD5_regularity :
    find_peak_spacing_regularity cexD5 2 w5 = ((0 : ℝ) : EReal) :=
  regularity_of_constant_spacing cexD5 2 w5 (by norm_num [npMax, npMin, w5]) rfl

theorem zero_lt_toE_three_tenths : (0 : EReal) < toE (3/10) := by
  unfold toE
  rw [← EReal.coe_zero, EReal.coe_lt_coe_iff]
  norm_num

theorem zero_lt_toE_one_fifth : (0 : EReal) < toE (1/5) := by
  unfold toE
  rw [← EReal.coe_zero, EReal.coe_lt_coe_iff]
  norm_num

/-- Counterexample to C5 as stated: the first waveform has 5 peaks with
regularity 0 (below the 0.3 threshold), so the mode is found immediately
while the slow offset sits at 3 V — yet the completed run ends with the
slow offset reset to `start_v` = 2 V, because the reset at
cavity_control.py:1841-1843 is unconditional. -/
theorem C5_slow_offset_reset_counterexample :
    5 ≤ number_of_peaks cexD5 2 w5 ∧
    find_peak_spacing_regularity cexD5 2 w5 < toE (3/10) ∧
    cexSt7.auxOffset = 3 ∧
    cexSt7.slowSpin = 3 ∧
    cexSt7.startVSpin = 2 ∧
    mode_finding_routine cexD5 2 cexMFS5 mfDefaults [.ok w5, .ok w5] cexSt7
      = some (.finished, true, cexSt7After) ∧
    cexSt7After.auxOffset = 2 ∧
    cexSt7After.slowSpin = 2 := by
  refine ⟨by rw [cexD5_peaks],
    by rw [cexD5_regularity, EReal.coe_zero]; exact zero_lt_toE_three_tenths,
    rfl, rfl, rfl, ?_, ?_, ?_⟩
  · rw [mode_finding_routine_acquired cexD5 2 cexMFS5 mfDefaults [.ok w5, .ok w5]
      cexSt7 (by simp [cexSt7, cexSt6])]
    norm_num [mfBody, mfInitialCheck, readScope1, cexD5_peaks, cexD5_regularity,
      zero_lt_toE_three_tenths, zero_lt_toE_one_fifth, mfTail, mfCoarseLoop,
      mfAfterCoarse, mfFineLoop, mfRestore, mfPrefix, disable_pid,
      pid_enable_setChecked, dither_enable_setChecked, auto_offset_setChecked,
      monitor_reflection_setChecked, auto_mode_finder_setChecked,
      amplitude_fine_setValue, amplitude_setValue, freq_setValue,
      output_setChecked, slow_offset_fine_setValue, slow_offset_setValue,
      on_slow_offset_changed, offset_setValue, on_offset_changed, pushEv,
      routine_lock_release, cexSt7After, cexSt7, cexSt6, cexMFS5, mfDefaults,
      min_def, max_def]
  · norm_num [cexSt7After, routine_lock_release, pushEv, offset_setValue,
      on_offset_changed, slow_offset_setValue, on_slow_offset_changed,
      cexSt7, cexSt6]
  · norm_num [cexSt7After, routine_lock_release, pushEv, offset_setValue,
      on_offset_changed, slow_offset_setValue, on_slow_offset_changed,
      cexSt7, cexSt6]

/-- Witness for C5 (amended) at the concrete immediate-found input: the
run equals the found tail after the single initial read, and the completed
run ends with the slow offset at `start_v`. -/
theorem C5_initial_found_skips_coarse_scan_witness :
    (mode_finding_routine cexD5 2 cexMFS5 mfDefaults [.ok w5, .ok w5] cexSt7
      = match mfTail cexD5 2 mfDefaults cexSt7.fgAmplitude cexSt7.fgFrequency
            cexSt7.pidCheck cexSt7.ditherCheck cexSt7.autoOffsetCheck
            cexSt7.reflCheck cexSt7.outputCheck cexSt7.autoModeCheck
            cexSt7.startVSpin cexSt7.stopVSpin true [.ok w5]
            (pushEv .readScope (mfPrefix cexMFS5 {cexSt7 with lockHeld := true})) with
        | none => none
        | some (.error st1) => some (.raised, false, routine_lock_release st1)
        | some (.ok (found, st1)) =>
          some (.finished, found, routine_lock_release st1)) ∧
    (∀ (found : Bool) (stf : St),
      mode_finding_routine cexD5 2 cexMFS5 mfDefaults [.ok w5, .ok w5] cexSt7
        = some (.finished, found, stf) →
      found = true ∧ stf.slowSpin = cexSt7.startVSpin ∧
      ((pushEv .readScope (mfPrefix cexMFS5 {cexSt7 with lockHeld := true})).slowSpin
          ≠ cexSt7.startVSpin → stf.auxOffset = cexSt7.startVSpin)) := by
  obtain ⟨h1, _, h3⟩ := C5_initial_found_skips_coarse_scan cexD5 2 cexMFS5
    mfDefaults w5 [.ok w5] cexSt7 (by simp [cexSt7, cexSt6])
    (by rw [cexD5_peaks])
    (by rw [cexD5_regularity, EReal.coe_zero]; exact zero_lt_toE_three_tenths)
  exact ⟨h1, h3⟩

end CavityControl
